import Mathlib

/-!
Verification model of the Mobile_Money_CDR_Analysis per-file analysis
pipeline: the four analyzer modules' `AnalysisThread.run`, the schema
checks of `load_file`, and their helper functions, embedded shallowly.
Pandas columns become Lean lists of optional values (`none` models NaN),
floats become `Rat`, raised exceptions become `Except`/`Option`, and Qt
signal emissions become an explicit event trace.
-/

namespace CDR

/-- A nullable cell of a numeric pandas column: `none` models NaN. -/
abbrev NumCell := Option Rat

/-- A nullable cell of a string-valued pandas column: `none` models NaN. -/
abbrev StrCell := Option String

/-! ## Series primitives (models of the pandas operations the runs use) -/

/-- Distinct values of a list in order of first occurrence — the key order
pandas hash-based counting produces before any sort. -/
def firstUniques [DecidableEq α] : List α → List α
  | [] => []
  | x :: t => x :: firstUniques (t.filter (fun y => y ≠ x))
termination_by l => l.length
decreasing_by
  simpa using Nat.lt_succ_of_le (t.length_filter_le (fun y => y ≠ x))

/-- The descending-count order used by `pandas.Series.value_counts` and
`sort_values(ascending=False)`. -/
def countGE : α × Nat → α × Nat → Prop := fun a b => b.2 ≤ a.2

instance : DecidableRel (countGE (α := α)) := fun a b => Nat.decLe b.2 a.2

instance : IsTotal (α × Nat) countGE :=
  ⟨fun a b => (Nat.le_total b.2 a.2).elim .inl .inr⟩

instance : IsTrans (α × Nat) countGE :=
  ⟨fun _ _ _ h1 h2 => Nat.le_trans h2 h1⟩

/-- Stable descending sort by count (`sort_values(by=count, ascending=False)`). -/
def sortByCountDesc (l : List (α × Nat)) : List (α × Nat) :=
  List.insertionSort countGE l

/-- Model of `Series.value_counts()`: frequency of each distinct non-null
value, sorted by count descending (ties kept in first-occurrence order by
the stable sort). -/
def value_counts [DecidableEq α] (xs : List (Option α)) : List (α × Nat) :=
  let vs := xs.filterMap id
  sortByCountDesc ((firstUniques vs).map (fun v => (v, vs.count v)))

/-- Model of `Series.idxmax` applied after a group-count: the first entry
achieving the maximal count (pandas `idxmax` returns the first maximal
label); `none` models the `ValueError` raised on an empty series. -/
def argmaxFirst : List (κ × Nat) → Option (κ × Nat)
  | [] => none
  | p :: t => some (t.foldl (fun acc q => if q.2 > acc.2 then q else acc) p)

/-- Boolean-mask row selection, `df[mask]` on a single column. -/
def selectBy (mask : List Bool) (xs : List α) : List α :=
  (mask.zip xs).filterMap (fun p => if p.1 then some p.2 else none)

/-- Model of `Series.sum()` (NaN skipped; empty sum is 0, as in pandas). -/
def colSum (xs : List NumCell) : Rat := (xs.filterMap id).sum

/-- Model of `Series.mean()` (NaN skipped); `none` models the NaN result
pandas returns for an empty or all-NaN series — no division is attempted. -/
def colMean (xs : List NumCell) : Option Rat :=
  let vs := xs.filterMap id
  if vs.length = 0 then none else some (vs.sum / (vs.length : Rat))

/-- Data-level failure of `plt.hist` (`generate_histogram`): matplotlib
autodetects the bin range ignoring NaN, so a nonempty series with no
finite value leaves the autodetected range `[nan, nan]` and `np.histogram`
raises `ValueError`; an empty series draws an empty histogram without
raising, and a series with at least one finite value gets a finite range. -/
def histRaises (xs : List NumCell) : Bool :=
  !xs.isEmpty && (xs.filterMap id).isEmpty

/-- Model of `groupby(keys).size()` for already-extracted non-null keys:
pairs each distinct key with its multiplicity, in first-occurrence order
(pandas sorts group keys; no claim here depends on the pre-sort order). -/
def groupbySize [DecidableEq κ] (keys : List κ) : List (κ × Nat) :=
  (firstUniques keys).map (fun k => (k, keys.count k))

/-- Non-null (latitude, longitude) key pairs of a two-column groupby —
pandas drops rows whose group key contains NaN. -/
def pairKeys (a b : List NumCell) : List (Rat × Rat) :=
  (a.zip b).filterMap (fun p =>
    match p.1, p.2 with
    | some x, some y => some (x, y)
    | _, _ => none)

/-- Non-null key triples of a three-column groupby over numeric columns. -/
def tripleKeysR (a b c : List NumCell) : List (Rat × Rat × Rat) :=
  (a.zip (b.zip c)).filterMap (fun p =>
    match p.1, p.2.1, p.2.2 with
    | some x, some y, some z => some (x, y, z)
    | _, _, _ => none)

/-- Non-null key triples of a three-column groupby over string columns. -/
def tripleKeysS (a b c : List StrCell) : List (String × String × String) :=
  (a.zip (b.zip c)).filterMap (fun p =>
    match p.1, p.2.1, p.2.2 with
    | some x, some y, some z => some (x, y, z)
    | _, _, _ => none)

/-- Ascending sort by the (numeric) index, `Series.sort_index()` after a
`value_counts` over hours. -/
def sortByIndexAsc (l : List (Nat × Nat)) : List (Nat × Nat) :=
  List.insertionSort (fun a b => a.1 ≤ b.1) l

/-! ## Number formatting (models of the Python format specifiers used) -/

/-- Round a rational to the nearest integer, halves to even — the rounding
Python fixed-point formatting applies to the decimal value. -/
def roundHalfEven (a : Rat) : Int :=
  let fl : Int := a.floor
  let frac : Rat := a - (fl : Rat)
  if frac < 1/2 then fl
  else if 1/2 < frac then fl + 1
  else if fl % 2 = 0 then fl else fl + 1

/-- Left-pad a digit string with zeros to the given width. -/
def padZeros (n : Nat) (s : String) : String :=
  String.mk (List.replicate (n - s.length) '0') ++ s

/-- Model of Python `f"{x:.pf}"` fixed-point formatting of a finite float,
on the rational carrying its value. -/
def fmtFixed (prec : Nat) (q : Rat) : String :=
  let m := (roundHalfEven (|q| * ((10 ^ prec : Nat) : Rat))).toNat
  let sign := if q < 0 then "-" else ""
  if prec = 0 then sign ++ toString m
  else sign ++ toString (m / 10 ^ prec) ++ "." ++ padZeros prec (toString (m % 10 ^ prec))

/-- Chunk a (reversed) digit list into groups of three for the thousands
separator of `f"{x:,.2f}"`. -/
def commaChunks : List Char → List (List Char)
  | [] => []
  | c :: t => (c :: t.take 2) :: commaChunks (t.drop 2)
termination_by l => l.length
decreasing_by simp; omega

/-- Insert thousands separators into an integer digit string. -/
def commaGroup (s : String) : String :=
  String.intercalate ","
    (((commaChunks s.toList.reverse).map (fun c => String.mk c.reverse)).reverse)

/-- Model of Python `f"{x:,.2f}"`-style formatting with thousands grouping. -/
def fmtComma (prec : Nat) (q : Rat) : String :=
  let m := (roundHalfEven (|q| * ((10 ^ prec : Nat) : Rat))).toNat
  let sign := if q < 0 then "-" else ""
  sign ++ commaGroup (toString (m / 10 ^ prec)) ++ "." ++
    padZeros prec (toString (m % 10 ^ prec))

/-- Fixed-point formatting of a nullable cell: formatting NaN yields the
string "nan" in Python. -/
def fmtCell (prec : Nat) (c : NumCell) : String :=
  match c with
  | none => "nan"
  | some q => fmtFixed prec q

/-- Comma-grouped formatting of a nullable cell, "nan" for NaN. -/
def fmtCommaCell (prec : Nat) (c : NumCell) : String :=
  match c with
  | none => "nan"
  | some q => fmtComma prec q

/-- Number of decimal digits (capped) needed to print the fractional part of
a rational exactly; helper for the default float rendering. -/
def decPrecAux (q : Rat) : Nat → Nat
  | 0 => 0
  | fuel + 1 => if q.den = 1 then 0 else 1 + decPrecAux (q * 10) fuel

/-- Model of Python `str(float)` / `f"{x}"` for a float of short decimal
expansion (the repr prints the shortest round-tripping decimal; integral
floats print with a trailing ".0"). -/
def pyFloatStr (q : Rat) : String :=
  if q.den = 1 then toString q.num ++ ".0"
  else fmtFixed (decPrecAux q 17) q

/-- Rendering of a numeric nullable cell inside an f-string. -/
def numCellStr (c : NumCell) : String :=
  match c with
  | none => "nan"
  | some q => pyFloatStr q

/-- Rendering of a string-valued nullable cell inside an f-string
(a NaN cell prints as "nan"). -/
def strCellStr (c : StrCell) : String := c.getD "nan"

/-! ## Timestamps (model of `pd.to_datetime` on the formats the data uses) -/

/-- A parsed timestamp. -/
structure DateTime where
  year : Nat
  month : Nat
  day : Nat
  hour : Nat
  minute : Nat
  second : Nat
  deriving DecidableEq

/-- Weekday names as returned by `Series.dt.day_name()`. -/
def dayNames : List String :=
  ["Monday", "Tuesday", "Wednesday", "Thursday", "Friday", "Saturday", "Sunday"]

/-- Zeller congruence index of a calendar date (0 = Saturday). -/
def zellerIndex (y m d : Nat) : Nat :=
  let yy := if m ≤ 2 then y - 1 else y
  let mm := if m ≤ 2 then m + 12 else m
  let k := yy % 100
  let j := yy / 100
  (d + 13 * (mm + 1) / 5 + k + k / 4 + j / 4 + 5 * j) % 7

/-- Model of `Series.dt.day_name()` on one timestamp. -/
def DateTime.dayName (t : DateTime) : String :=
  dayNames.getD ((zellerIndex t.year t.month t.day + 5) % 7) ""

/-- Parse the decimal digits of a nonempty all-digit character list. -/
def digitsToNat (cs : List Char) : Option Nat :=
  if cs = [] ∨ cs.any (fun c => decide (¬ c.isDigit)) then none
  else some (cs.foldl (fun acc c => acc * 10 + (c.toNat - 48)) 0)

/-- Parse one "YYYY-MM-DD HH:MM:SS" timestamp string, the normalized form
the cleaned CDR exports carry; `none` models a `pd.to_datetime` parse
failure (which raises for the whole column). -/
def parseTs (s : String) : Option DateTime :=
  match s.splitOn " " with
  | [d, t] =>
    match d.splitOn "-", t.splitOn ":" with
    | [ys, ms, ds], [hs, mis, ses] =>
      match digitsToNat ys.toList, digitsToNat ms.toList, digitsToNat ds.toList,
          digitsToNat hs.toList, digitsToNat mis.toList, digitsToNat ses.toList with
      | some y, some mo, some da, some h, some mi, some se =>
        if 1 ≤ mo ∧ mo ≤ 12 ∧ 1 ≤ da ∧ da ≤ 31 ∧ h ≤ 23 ∧ mi ≤ 59 ∧ se ≤ 59 then
          some ⟨y, mo, da, h, mi, se⟩
        else none
      | _, _, _, _, _, _ => none
    | _, _ => none
  | _ => none

/-- Model of `pd.to_datetime` over a whole column: any unparsable entry
makes the conversion raise, so the whole column either converts or fails. -/
def parseTsList : List String → Option (List DateTime)
  | [] => some []
  | s :: t =>
    match parseTs s, parseTsList t with
    | some d, some ds => some (d :: ds)
    | _, _ => none

/-- Zero-padded two-digit rendering. -/
def pad2 (n : Nat) : String := if n < 10 then "0" ++ toString n else toString n

/-- Model of `str(Timestamp)`. -/
def tsStr (t : DateTime) : String :=
  toString t.year ++ "-" ++ pad2 t.month ++ "-" ++ pad2 t.day ++ " " ++
    pad2 t.hour ++ ":" ++ pad2 t.minute ++ ":" ++ pad2 t.second

/-! ## Time-of-day bucketing

`get_time_period` appears verbatim in both `mtn_cdr_analyzer.py` and
`airteltigo_cdr_analyzer.py`; one definition models both. -/

/-- Model of `AnalysisThread.get_time_period` (hour already in 0..23 as
produced by `Series.dt.hour`). -/
def get_time_period (hour : Nat) : String :=
  if hour < 6 then "Night"
  else if hour < 12 then "Morning"
  else if hour < 18 then "Afternoon"
  else "Evening"

/-! ## Reverse geocoding (model of `get_location_name` and its cache) -/

/-- A geocoding cache key: the raw (latitude, longitude) cell pair. -/
abbrev GeoKey := NumCell × NumCell

/-- Outcome of one network-bound `geolocator.reverse` call. -/
inductive GeoResult where
  | found (address : String)
  | notFound
  | unavailable
  deriving DecidableEq

/-- The external geocoding service, as an oracle from keys to outcomes. -/
abbrev GeoFn := GeoKey → GeoResult

/-- The `geolocation_cache` dictionary of one `AnalysisThread`. -/
abbrev GeoCache := List (GeoKey × String)

/-- Python float equality on nullable cells: NaN compares unequal to
everything, itself included. -/
def pyEqCell (a b : NumCell) : Bool :=
  match a, b with
  | some x, some y => x == y
  | _, _ => false

/-- Dictionary lookup `cache_key in self.geolocation_cache`. -/
def cacheFind (cache : GeoCache) (k : GeoKey) : Option String :=
  (cache.find? (fun e => pyEqCell e.1.1 k.1 && pyEqCell e.1.2 k.2)).map Prod.snd

/-- Result of one `get_location_name` call: the address returned, the cache
afterwards, and the network-bound lookups performed (empty on a cache hit). -/
structure GeoOut where
  address : String
  cache : GeoCache
  lookups : List GeoKey
  deriving DecidableEq

/-- Model of `AnalysisThread.get_location_name`: consult the per-thread
cache first; on a miss perform one network lookup, caching the address (or
"Unknown Location"), while a timeout returns "Location Unavailable" without
caching. -/
def get_location_name (geo : GeoFn) (cache : GeoCache) (k : GeoKey) : GeoOut :=
  match cacheFind cache k with
  | some a => ⟨a, cache, []⟩
  | none =>
    match geo k with
    | .found a => ⟨a, cache ++ [(k, a)], [k]⟩
    | .notFound => ⟨"Unknown Location", cache ++ [(k, "Unknown Location")], [k]⟩
    | .unavailable => ⟨"Location Unavailable", cache, [k]⟩

/-! ## Events and run assembly (model of the Qt signals of a run) -/

/-- One emitted signal of an `AnalysisThread` run. For `analysis_complete`
the payload dictionary carries the visualization path map and the insight
list (the MTN variant also repeats the period locations and last-call
details in the same dictionary; those are derived from `results` and not
modelled as separate payload fields). -/
inductive Event where
  | progress (message : String) (percent : Nat)
  | complete (results : List (String × String))
      (visualizations : List (String × String)) (insights : List String)
  | error (message : String)
  deriving DecidableEq

/-- Whether an event is an `analysis_complete` emission. -/
def Event.isCompl : Event → Bool
  | .complete _ _ _ => true
  | _ => false

/-- Whether an event is an `error_occurred` emission. -/
def Event.isErr : Event → Bool
  | .error _ => true
  | _ => false

/-- Outcome of the `try:` body of a run: the progress emissions so far, the
results list on success or the exception text on failure, the dataframe as
mutated so far, and the visualization map and insights accumulated. -/
structure BodyOut (F : Type) where
  progress : List (String × Nat)
  outcome : Except String (List (String × String))
  frame : F
  viz : List (String × String)
  insights : List String

/-- Assemble the emitted trace of `AnalysisThread.run` from its body
outcome: the progress events in order, then either the single completion
event or the single `f"Analysis failed: {e}"` error event. -/
def assemble (o : BodyOut F) : List Event :=
  o.progress.map (fun p => Event.progress p.1 p.2) ++
    (match o.outcome with
     | .ok rs => [Event.complete rs o.viz o.insights]
     | .error e => [Event.error ("Analysis failed: " ++ e)])

/-! ## Numeric coercion at load time (`pd.to_numeric(..., errors="coerce").fillna(0)`) -/

/-- A raw spreadsheet cell before numeric coercion. -/
inductive RawCell where
  | num (q : Rat)
  | str (s : String)
  | na
  deriving DecidableEq

/-- Parse a decimal literal the way `pd.to_numeric` accepts plain numeric
strings (optional sign, digits, optional fractional part); `none` models a
parse failure, which `errors="coerce"` turns into NaN. -/
def parseRatStr (s : String) : Option Rat :=
  let s := s.trim
  let sgn : Rat := if s.startsWith "-" then -1 else 1
  let body := if s.startsWith "-" then s.drop 1 else s
  match body.splitOn "." with
  | [ip] => (digitsToNat ip.toList).map (fun n => sgn * (n : Rat))
  | [ip, fp] =>
    match digitsToNat ip.toList, digitsToNat fp.toList with
    | some n, some f =>
        some (sgn * ((n : Rat) + (f : Rat) / ((10 ^ fp.length : Nat) : Rat)))
    | _, _ => none
  | _ => none

/-- Model of `pd.to_numeric(cell, errors="coerce")` on one cell. -/
def to_numeric : RawCell → Option Rat
  | .num q => some q
  | .str s => parseRatStr s
  | .na => none

/-- Model of `pd.to_numeric(col, errors="coerce").fillna(0)`: every cell
becomes numeric; cells that fail to parse (and NaN cells) become exactly 0. -/
def coerceNumeric (xs : List RawCell) : List RawCell :=
  xs.map (fun c => .num ((to_numeric c).getD 0))

/-! ## Schema check (`load_file` required-column enumeration) -/

/-- Model of `[col for col in required_columns if col not in df.columns]`. -/
def missingColumns (required present : List String) : List String :=
  required.filter (fun c => decide (c ∉ present))

/-- Strict positivity test `cell > 0` of a nullable cell (NaN > 0 is False
in pandas, so NaN rows never enter the filtered subset). -/
def cellPos (c : NumCell) : Bool :=
  match c with
  | some v => decide (0 < v)
  | none => false

/-! # AirtelTigo Cash analyzer (`airteltigo_cash_analyzer.py`) -/

namespace ATCash

/-- Loaded AirtelTigo Cash table. Base columns as required/used by the run;
`completionTime` is the optional raw "Completion Time" column, and the
`dateD`/`hourD`/`dowD` fields are the derived columns the run writes into
the same dataframe (absent before the run). -/
structure CashFrame where
  paidIn : List NumCell
  withdrawn : List NumCell
  balance : List NumCell
  oppositeParty : List StrCell
  transactionStatus : List StrCell
  completionTime : Option (List String)
  dateD : Option (List DateTime)
  hourD : Option (List Nat)
  dowD : Option (List String)
  deriving DecidableEq

/-- Row count `len(self.df)`. -/
def CashFrame.nRows (f : CashFrame) : Nat := f.paidIn.length

/-- `required_columns` of `AirtelTigoCashAnalyzer.load_file`. -/
def requiredColumns : List String :=
  ["Paid In", "Withdrawn", "Balance", "Opposite Party"]

/-- Column-name normalization `[col.strip() for col in self.df.columns]`. -/
def normalizeCols (cols : List String) : List String := cols.map String.trim

/-- The enumerated missing-column list computed by `load_file`. -/
def missing (cols : List String) : List String :=
  missingColumns requiredColumns (normalizeCols cols)

/-- Schema decision of `load_file`: on any missing column the file is
rejected (`self.df = None` and return) with the full missing list; the
numeric columns are only coerced on acceptance. -/
def load_file_check (cols : List String) : Except (List String) Unit :=
  if missing cols = [] then .ok () else .error (missing cols)

/-- The Totals step of `AnalysisThread.run` (results entries 1-6): record
count, sums, net flow, and the two guarded averages, which report "N/A"
exactly when `pd.isna` holds of the mean, i.e. when the positive subset is
empty. -/
def totalsResults (f : CashFrame) : List (String × String) :=
  let totalIncome := colSum f.paidIn
  let totalExpenses := colSum f.withdrawn
  let avgDeposit := colMean (selectBy (f.paidIn.map cellPos) f.paidIn)
  let avgWithdrawal := colMean (selectBy (f.withdrawn.map cellPos) f.withdrawn)
  [("Total Transactions", toString f.nRows),
   ("Total Deposits", "GH₵ " ++ fmtFixed 2 totalIncome),
   ("Total Withdrawals", "GH₵ " ++ fmtFixed 2 totalExpenses),
   ("Net Cash Flow", "GH₵ " ++ fmtFixed 2 (totalIncome - totalExpenses)),
   ("Average Deposit Amount",
    match avgDeposit with
    | some v => "GH₵ " ++ fmtFixed 2 v
    | none => "N/A"),
   ("Average Withdrawal Amount",
    match avgWithdrawal with
    | some v => "GH₵ " ++ fmtFixed 2 v
    | none => "N/A")]

/-- The guarded time-based analysis block (step 10): runs only when the
"Completion Time" column exists, inside an inner `try` whose handler logs
and continues, so a parse failure or an empty-series `idxmax` abandons the
rest of the block while keeping the mutations and artifacts made so far. -/
def timeBlock (f : CashFrame) (viz : List (String × String)) (ins : List String) :
    CashFrame × List (String × String) × List String :=
  match f.completionTime with
  | none => (f, viz, ins)
  | some raw =>
    match parseTsList raw with
    | none => (f, viz, ins)
    | some ts =>
      let f1 := { f with dateD := some ts, hourD := some (ts.map DateTime.hour),
                         dowD := some (ts.map DateTime.dayName) }
      let hourly := sortByIndexAsc (value_counts ((ts.map DateTime.hour).map some))
      let viz1 := viz ++ [("hourly", "hourly_distribution.png")]
      match argmaxFirst hourly with
      | none => (f1, viz1, ins)
      | some ph =>
        let ins1 := ins ++ ["Peak transaction hour: " ++ toString ph.1 ++ ":00 with "
          ++ toString ph.2 ++ " transactions"]
        let dayCounts := value_counts ((ts.map DateTime.dayName).map some)
        let viz2 := viz1 ++ [("daily", "day_distribution.png")]
        match argmaxFirst dayCounts with
        | none => (f1, viz2, ins1)
        | some pday =>
          (f1, viz2, ins1 ++ ["Most active day: " ++ pday.1 ++ " with "
            ++ toString pday.2 ++ " transactions"])

/-- The `try:` body of `ATCash.AnalysisThread.run`: totals, status
breakdown, top counterparties (whose insight indexes `top_parties.index[0]`
and raises on an empty ranking), amount distribution, then the guarded
time block. Chart renderings only write files and are modelled as pure. -/
def body (f : CashFrame) : BodyOut CashFrame :=
  let p0 := [("Analyzing transaction patterns...", 0)]
  let results1 := totalsResults f
  let p1 := p0 ++ [("Analyzing transaction status...", 10)]
  let statusCounts := value_counts f.transactionStatus
  let results2 := results1 ++ ("Transaction Status", "Count")
    :: statusCounts.map (fun p => (p.1, toString p.2))
  let viz1 := [("transaction_status", "transaction_status.png")]
  let ins1 := ["Transaction status: " ++ String.intercalate ", "
    (statusCounts.map (fun p => p.1 ++ " (" ++ toString p.2 ++ ")"))]
  let p2 := p1 ++ [("Analyzing transaction parties...", 20)]
  let topParties := (value_counts f.oppositeParty).take 5
  let results3 := results2 ++ ("Top 5 Counterparties", "Count")
    :: topParties.map (fun p => (p.1, toString p.2))
  let viz2 := viz1 ++ [("top_parties", "top_parties.png")]
  match topParties.head? with
  | none => ⟨p2, .error "index 0 is out of bounds for axis 0 with size 0", f, viz2, ins1⟩
  | some tp =>
    let ins2 := ins1 ++ ["Most frequent counterparty: " ++ tp.1 ++ " with "
      ++ toString tp.2 ++ " transactions"]
    let p3 := p2 ++ [("Analyzing transaction amounts...", 30)]
    if histRaises (f.paidIn ++ f.withdrawn) then
      ⟨p3, .error "autodetected range of [nan, nan] is not finite", f, viz2, ins2⟩
    else
      let viz3 := viz2 ++ [("amount_dist", "amount_distribution.png")]
      let ins3 := ins2 ++ ["Average transaction amount: GH₵ "
        ++ fmtCell 2 (colMean (f.paidIn ++ f.withdrawn))]
      let p4 := p3 ++ [("Generating time-based analysis...", 40)]
      let tb := timeBlock f viz3 ins3
      let p5 := p4 ++ [("Finalizing results...", 50)]
      ⟨p5, .ok results3, tb.1, tb.2.1, tb.2.2⟩

/-- Model of `ATCash.AnalysisThread.run`: the emitted event trace. -/
def run (df : Option CashFrame) : List Event :=
  match df with
  | none => [.error "No data loaded for analysis"]
  | some f => assemble (body f)

end ATCash

/-! # MTN Mobile Money analyzer (`mobile_money_analyzer.py`) -/

namespace Momo

/-- Loaded Mobile Money table: the two required columns, the sender and
receiver grouping columns the run reads unconditionally, the optional raw
"DATE" column, and the derived columns the run writes in place. -/
structure MomoFrame where
  transactionType : List StrCell
  fromAmount : List NumCell
  fromAccount : List StrCell
  fromAccountName : List StrCell
  fromPhone : List StrCell
  toAccount : List StrCell
  toAccountName : List StrCell
  toPhone : List StrCell
  dateRaw : Option (List String)
  dateD : Option (List DateTime)
  hourD : Option (List Nat)
  dowD : Option (List String)
  deriving DecidableEq

/-- Row count `len(self.df)`. -/
def MomoFrame.nRows (f : MomoFrame) : Nat := f.fromAmount.length

/-- `required_columns` of `MobileMoneyAnalyzer.load_file`. -/
def requiredColumns : List String := ["TRANSACTION TYPE", "FROM AMOUNT"]

/-- Column normalization `[col.strip().upper() for col in self.df.columns]`. -/
def normalizeCols (cols : List String) : List String :=
  cols.map (fun c => c.trim.toUpper)

/-- The enumerated missing-column list computed by `load_file`. -/
def missing (cols : List String) : List String :=
  missingColumns requiredColumns (normalizeCols cols)

/-- Schema decision of `load_file`. -/
def load_file_check (cols : List String) : Except (List String) Unit :=
  if missing cols = [] then .ok () else .error (missing cols)

/-- The Totals step (results entries 1-5). The average of `FROM AMOUNT` is
formatted unguarded: an empty or all-NaN column gives a NaN mean, rendered
"₵nan", not "N/A". -/
def totalsResults (f : MomoFrame) : List (String × String) :=
  let totalIncome := colSum (selectBy
    (f.transactionType.map (fun c => c == some "CREDIT")) f.fromAmount)
  let totalExpenses := colSum (selectBy
    (f.transactionType.map (fun c => c == some "DEBIT")) f.fromAmount)
  [("Total Transactions", toString f.nRows),
   ("Total Income", "₵" ++ fmtComma 2 totalIncome),
   ("Total Expenses", "₵" ++ fmtComma 2 totalExpenses),
   ("Net Balance", "₵" ++ fmtComma 2 (totalIncome - totalExpenses)),
   ("Average Transaction Amount", "₵" ++ fmtCommaCell 2 (colMean f.fromAmount))]

/-- Top senders: three-column groupby size, sorted by count descending,
truncated to 5 (`groupby(...).size().reset_index(name="COUNT")` followed by
`sort_values(by="COUNT", ascending=False).head(5)`). -/
def topSenders (f : MomoFrame) : List ((String × String × String) × Nat) :=
  (sortByCountDesc (groupbySize
    (tripleKeysS f.fromAccount f.fromAccountName f.fromPhone))).take 5

/-- Top receivers, symmetric to `topSenders`. -/
def topReceivers (f : MomoFrame) : List ((String × String × String) × Nat) :=
  (sortByCountDesc (groupbySize
    (tripleKeysS f.toAccount f.toAccountName f.toPhone))).take 5

/-- The guarded time-based analysis block (step 10), inside a bare
`except: pass`: mutations made before a failure persist. -/
def timeBlock (f : MomoFrame) (viz : List (String × String)) (ins : List String) :
    MomoFrame × List (String × String) × List String :=
  match f.dateRaw with
  | none => (f, viz, ins)
  | some raw =>
    match parseTsList raw with
    | none => (f, viz, ins)
    | some ts =>
      let f1 := { f with dateD := some ts, hourD := some (ts.map DateTime.hour),
                         dowD := some (ts.map DateTime.dayName) }
      let hourly := sortByIndexAsc (value_counts ((ts.map DateTime.hour).map some))
      let viz1 := viz ++ [("hourly", "hourly_distribution.png")]
      match argmaxFirst hourly with
      | none => (f1, viz1, ins)
      | some ph =>
        let ins1 := ins ++ ["Peak transaction hour: " ++ toString ph.1 ++ ":00 with "
          ++ toString ph.2 ++ " transactions"]
        let dayCounts := value_counts ((ts.map DateTime.dayName).map some)
        let viz2 := viz1 ++ [("daily", "day_distribution.png")]
        match argmaxFirst dayCounts with
        | none => (f1, viz2, ins1)
        | some pday =>
          (f1, viz2, ins1 ++ ["Most active day: " ++ pday.1 ++ " with "
            ++ toString pday.2 ++ " transactions"])

/-- The `try:` body of `Momo.AnalysisThread.run`. The top-sender and
top-receiver insights index `iloc[0]` of their rankings and raise on an
empty grouping. -/
def body (f : MomoFrame) : BodyOut MomoFrame :=
  let p0 := [("Analyzing transaction patterns...", 0)]
  let results1 := totalsResults f
  let p1 := p0 ++ [("Analyzing transaction types...", 10)]
  let transactionCounts := value_counts f.transactionType
  let results2 := results1 ++ ("Transaction Types", "Count")
    :: transactionCounts.map (fun p => (p.1, toString p.2))
  let viz1 := [("transaction_types", "transaction_types.png")]
  let ins1 := ["Transaction types: " ++ String.intercalate ", "
    (transactionCounts.map (fun p => p.1 ++ " (" ++ toString p.2 ++ ")"))]
  let p2 := p1 ++ [("Analyzing top senders...", 20)]
  let senders := topSenders f
  let results3 := results2 ++ ("Top Senders", "Count")
    :: senders.map (fun p => (p.1.2.1 ++ " (" ++ p.1.2.2 ++ ")", toString p.2))
  let viz2 := viz1 ++ [("top_senders", "top_senders.png")]
  match senders.head? with
  | none => ⟨p2, .error "single positional indexer is out-of-bounds", f, viz2, ins1⟩
  | some ts0 =>
    let ins2 := ins1 ++ ["Top sender: " ++ ts0.1.2.1 ++ " with "
      ++ toString ts0.2 ++ " transactions"]
    let p3 := p2 ++ [("Analyzing top receivers...", 30)]
    let receivers := topReceivers f
    let results4 := results3 ++ ("Top Receivers", "Count")
      :: receivers.map (fun p => (p.1.2.1 ++ " (" ++ p.1.2.2 ++ ")", toString p.2))
    let viz3 := viz2 ++ [("top_receivers", "top_receivers.png")]
    match receivers.head? with
    | none => ⟨p3, .error "single positional indexer is out-of-bounds", f, viz3, ins2⟩
    | some tr0 =>
      let ins3 := ins2 ++ ["Top receiver: " ++ tr0.1.2.1 ++ " with "
        ++ toString tr0.2 ++ " transactions"]
      let p4 := p3 ++ [("Analyzing transaction amounts...", 40)]
      if histRaises f.fromAmount then
        ⟨p4, .error "autodetected range of [nan, nan] is not finite", f, viz3, ins3⟩
      else
        let viz4 := viz3 ++ [("amount_dist", "amount_distribution.png")]
        let ins4 := ins3 ++ ["Average transaction amount: ₵"
          ++ fmtCommaCell 2 (colMean f.fromAmount)]
        let p5 := p4 ++ [("Generating time-based analysis...", 50)]
        let tb := timeBlock f viz4 ins4
        let p6 := p5 ++ [("Finalizing results...", 60)]
        ⟨p6, .ok results4, tb.1, tb.2.1, tb.2.2⟩

/-- Model of `Momo.AnalysisThread.run`: the emitted event trace. -/
def run (df : Option MomoFrame) : List Event :=
  match df with
  | none => [.error "No data loaded for analysis"]
  | some f => assemble (body f)

/-- The dataframe as mutated by a run (the thread aliases `self.df`, so
the caller-visible table is this value after the run). -/
def runFrame (f : MomoFrame) : MomoFrame := (body f).frame

end Momo

/-! # AirtelTigo CDR analyzer (`airteltigo_cdr_analyzer.py`) -/

namespace ATCDR

/-- Loaded AirtelTigo CDR table. `Owner Number`, `Outgoing` and `Incoming`
are numeric phone-number columns; the derived `eventDT`/`hourD`/`dowD`/
`periodD` fields model the columns the run writes in place. -/
structure AtcdrFrame where
  ownerNumber : List NumCell
  outgoing : List NumCell
  incoming : List NumCell
  duration : List NumCell
  callType : List StrCell
  eventDateTime : List String
  latitude : List NumCell
  longitude : List NumCell
  imei : List StrCell
  imsi : List StrCell
  cellDetails : List StrCell
  eventDT : Option (List DateTime)
  hourD : Option (List Nat)
  dowD : Option (List String)
  periodD : Option (List String)
  deriving DecidableEq

/-- Row count `len(calls)`. -/
def AtcdrFrame.nRows (f : AtcdrFrame) : Nat := f.ownerNumber.length

/-- `required_columns` of `AirtelTigoCDRAnalyzer.load_file`. -/
def requiredColumns : List String :=
  ["Owner Number", "Outgoing", "Incoming", "Duration",
   "Call Type", "Event Date & Time", "Latitude", "Longitude"]

/-- Column normalization `self.df.columns.str.strip()`. -/
def normalizeCols (cols : List String) : List String := cols.map String.trim

/-- The enumerated missing-column list computed by `load_file`. -/
def missing (cols : List String) : List String :=
  missingColumns requiredColumns (normalizeCols cols)

/-- Schema decision of `load_file`. -/
def load_file_check (cols : List String) : Except (List String) Unit :=
  if missing cols = [] then .ok () else .error (missing cols)

/-- Failure of `fillna(0).astype("Int64")` on one column: the cast raises
`TypeError` when the zero-filled column holds a non-integral float, and the
raising assignment leaves that column unmutated. -/
def int64CastFails (xs : List NumCell) : Bool :=
  xs.any (fun c => decide ((c.getD 0).den ≠ 1))

/-- The in-place `fillna(0).astype("Int64")` of the `Outgoing` and
`Incoming` columns at the top of the run, on the success path where both
casts are safe (the run body guards each column with `int64CastFails`). -/
def fillPhones (f : AtcdrFrame) : AtcdrFrame :=
  { f with outgoing := f.outgoing.map (fun c => some (c.getD 0)),
           incoming := f.incoming.map (fun c => some (c.getD 0)) }

/-- Rendering of an `Int64` phone-number cell value inside an f-string. -/
def pyIntStr (q : Rat) : String := toString q.num

/-- The in-place temporal derivation (`to_datetime`, `.dt.hour`,
`.dt.day_name()`, `apply(self.get_time_period)`). -/
def derive (f : AtcdrFrame) (ts : List DateTime) : AtcdrFrame :=
  { f with eventDT := some ts,
           hourD := some (ts.map DateTime.hour),
           dowD := some (ts.map DateTime.dayName),
           periodD := some (ts.map (fun t => get_time_period t.hour)) }

/-- The last row (`calls.iloc[-1]`) fields the run reads; `none` models the
`IndexError` on an empty table. The `Event Date & Time` value read here is
the already-converted timestamp. -/
def lastRecord (f : AtcdrFrame) (ts : List DateTime) :
    Option (StrCell × Option DateTime × NumCell × NumCell × StrCell) :=
  if f.nRows = 0 then none
  else some (f.callType.getLastD none, ts.getLast?, f.latitude.getLastD none,
    f.longitude.getLastD none, f.cellDetails.getLastD none)

/-- The `try:` body of `ATCDR.AnalysisThread.run`. Chart renderings write
files and are modelled as pure except their data-level failures: the
`Int64` casts of the phone columns, the duration histogram on a nonempty
all-NaN series, and `generate_map`, which re-raises its caught exception,
so its empty-location `ValueError` fails the run. -/
def body (f0 : AtcdrFrame) : BodyOut AtcdrFrame :=
  let p0 := [("Analyzing call patterns...", 0)]
  if int64CastFails f0.outgoing then
    ⟨p0, .error "cannot safely cast non-equivalent float64 to int64", f0, [], []⟩ else
  if int64CastFails f0.incoming then
    ⟨p0, .error "cannot safely cast non-equivalent float64 to int64",
      { f0 with outgoing := f0.outgoing.map (fun c => some (c.getD 0)) }, [], []⟩ else
  let f1 := fillPhones f0
  let uniqueNumbers := (firstUniques ((f1.ownerNumber.filterMap id)
    ++ ((f1.outgoing.filterMap id).filter (fun v => decide (v ≠ 0)))
    ++ ((f1.incoming.filterMap id).filter (fun v => decide (v ≠ 0))))).length
  let outgoingContacts := (value_counts f1.outgoing).take 5
  let incomingContacts := (value_counts f1.incoming).take 5
  let callDurations := selectBy (f1.callType.map (fun c => !(c == some "SMS"))) f1.duration
  let avgDuration := colMean callDurations
  let results1 :=
    [("Total Records", toString f1.nRows),
     ("Unique Phone Numbers", toString uniqueNumbers),
     ("Total Call Duration (sec)", pyFloatStr (colSum callDurations)),
     ("Average Call Duration (sec)", fmtCell 2 avgDuration),
     ("Top Outgoing Contacts", "Frequency")]
    ++ outgoingContacts.map (fun p => (pyIntStr p.1, toString p.2))
    ++ [("Top Incoming Contacts", "Frequency")]
    ++ incomingContacts.map (fun p => (pyIntStr p.1, toString p.2))
  let p1 := p0 ++ [("Analyzing device information...", 6)]
  let imeiCounts := sortByCountDesc (value_counts f1.imei)
  let cellDetailCounts := (value_counts f1.cellDetails).take 5
  let results2 := results1
    ++ [("Unique IMEIs", toString imeiCounts.length),
        ("IMEI Frequency Analysis", "Records")]
    ++ (imeiCounts.take 5).map (fun p => (p.1, toString p.2))
    ++ [("Unique IMSIs", toString (firstUniques (f1.imsi.filterMap id)).length),
        ("Most Used Cell Towers", "Records")]
    ++ cellDetailCounts.map (fun p => (p.1, toString p.2))
  let p2 := p1 ++ [("Analyzing geolocations...", 13)]
  let locationCounts := sortByCountDesc (groupbySize (pairKeys f1.latitude f1.longitude))
  let results3 := results2 ++ ("Geolocation Frequency Analysis", "Records")
    :: (locationCounts.take 5).map (fun p =>
        ("Lat: " ++ fmtFixed 6 p.1.1 ++ ", Lon: " ++ fmtFixed 6 p.1.2, toString p.2))
  let p3 := p2 ++ [("Analyzing temporal patterns...", 20)]
  match parseTsList f1.eventDateTime with
  | none => ⟨p3, .error "time data does not match format", f1, [], []⟩
  | some ts =>
    let f2 := derive f1 ts
    let periodCounts := value_counts ((ts.map (fun t => get_time_period t.hour)).map some)
    match argmaxFirst periodCounts with
    | none => ⟨p3, .error "attempt to get argmax of an empty sequence", f2, [], []⟩
    | some mcp =>
      let dayCounts := value_counts ((ts.map DateTime.dayName).map some)
      match argmaxFirst dayCounts with
      | none => ⟨p3, .error "attempt to get argmax of an empty sequence", f2, [], []⟩
      | some mcd =>
        let results4 := results3 ++ [("Most Active Period", mcp.1), ("Most Active Day", mcd.1)]
        let p4 := p3 ++ [("Generating call type distribution...", 26)]
        let callTypeDist := value_counts f1.callType
        let viz1 := [("call_type", "call_type_distribution.png")]
        let ins1 := ["Call types: " ++ String.intercalate ", "
          (callTypeDist.map (fun p => p.1 ++ " (" ++ toString p.2 ++ " calls)"))]
        let p5 := p4 ++ [("Generating duration histogram...", 33)]
        if histRaises callDurations then
          ⟨p5, .error "autodetected range of [nan, nan] is not finite", f2, viz1, ins1⟩ else
        let viz2 := viz1 ++ [("duration", "duration_distribution.png")]
        let ins2 := ins1 ++ ["Average call duration: " ++ fmtCell 2 avgDuration ++ " seconds"]
        let p6 := p5 ++ [("Generating geolocation plot...", 40)]
        let viz3 := viz2 ++ [("geolocation", "geolocation_plot.png")]
        let ins3 := ins2 ++
          (match locationCounts.head? with
           | some top => ["Most frequent location: Lat " ++ fmtFixed 4 top.1.1
               ++ ", Lon " ++ fmtFixed 4 top.1.2 ++ " with " ++ toString top.2 ++ " calls"]
           | none => [])
        let p7 := p6 ++ [("Generating time distribution charts...", 46)]
        let viz4 := viz3 ++ [("hourly", "hourly_distribution.png"), ("daily", "day_distribution.png")]
        match (value_counts ((ts.map DateTime.hour).map some)).head? with
        | none => ⟨p7, .error "attempt to get argmax of an empty sequence", f2, viz4, ins3⟩
        | some ph =>
          let ins4 := ins3 ++ ["Peak calling hour: " ++ toString ph.1 ++ ":00 with "
              ++ toString ph.2 ++ " calls",
            "Most active day: " ++ mcd.1]
          let p8 := p7 ++ [("Generating device usage insights...", 53)]
          let topDevices := imeiCounts.take 5
          let viz5 := viz4 ++ [("devices", "device_usage.png")]
          match topDevices.head? with
          | none => ⟨p8, .error "index 0 is out of bounds for axis 0 with size 0", f2, viz5, ins4⟩
          | some td =>
            let ins5 := ins4 ++ ["Top device IMEI: " ++ td.1 ++ " used for "
              ++ toString td.2 ++ " calls"]
            let p9 := p8 ++ [("Generating contact network analysis...", 60)]
            let topContacts := (sortByCountDesc (outgoingContacts ++ incomingContacts)).take 5
            let viz6 := viz5 ++ [("contacts", "top_contacts.png")]
            match topContacts.head? with
            | none => ⟨p9, .error "index 0 is out of bounds for axis 0 with size 0", f2, viz6, ins5⟩
            | some tc =>
              let ins6 := ins5 ++ ["Most frequent contact: " ++ pyIntStr tc.1 ++ " with "
                ++ toString tc.2 ++ " interactions"]
              let p10 := p9 ++ [("Finalizing results...", 66)]
              match lastRecord f2 ts with
              | none => ⟨p10, .error "single positional indexer is out-of-bounds", f2, viz6, ins6⟩
              | some (lt, lts, lla, llo, lcd) =>
                let results5 := results4 ++
                  [("Last Record Type", strCellStr lt),
                   ("Last Record Time", match lts with
                     | some t => tsStr t
                     | none => "NaT"),
                   ("Last Location", "Lat: " ++ fmtCell 6 lla ++ ", Lon: " ++ fmtCell 6 llo),
                   ("Last Cell Tower", strCellStr lcd)]
                if (pairKeys f2.latitude f2.longitude).length = 0 then
                  ⟨p10, .error "No valid location data available", f2, viz6, ins6⟩
                else
                  let viz7 := viz6 ++ [("map", "AirtelTigo_CDR_Map.html")]
                  ⟨p10, .ok results5, f2, viz7, ins6⟩

/-- Model of `ATCDR.AnalysisThread.run`: the emitted event trace. -/
def run (df : Option AtcdrFrame) : List Event :=
  match df with
  | none => [.error "No data loaded for analysis"]
  | some f => assemble (body f)

/-- The dataframe as mutated by a run. -/
def runFrame (f : AtcdrFrame) : AtcdrFrame := (body f).frame

end ATCDR

/-! # MTN CDR analyzer (`mtn_cdr_analyzer.py`) -/

namespace MTN

/-- Loaded MTN CDR table. The `calling_no`/`called_no`/`imei` columns are
modelled as their Python `str(cell)` renderings (the run immediately
applies `astype(str)`); `callType` is the optional `call_type` column; the
`eventDT`/`hourD`/`dowD`/`periodD` fields model the derived columns the run
writes in place. -/
structure MtnFrame where
  callingNo : List String
  calledNo : List String
  imei : List String
  duration : List NumCell
  eventDateTime : List String
  latitude : List NumCell
  longitude : List NumCell
  azimuth : List NumCell
  callType : Option (List StrCell)
  eventDT : Option (List DateTime)
  hourD : Option (List Nat)
  dowD : Option (List String)
  periodD : Option (List String)
  deriving DecidableEq

/-- Row count `len(calls)`. -/
def MtnFrame.nRows (f : MtnFrame) : Nat := f.callingNo.length

/-- `required_columns` of `MTNCDRAnalyzer.load_file`. -/
def requiredColumns : List String :=
  ["calling_no", "called_no", "duration", "event_date_time",
   "latitude", "longitude", "azimuth"]

/-- The MTN `load_file` performs no column-name normalization. -/
def normalizeCols (cols : List String) : List String := cols

/-- The enumerated missing-column list computed by `load_file`. -/
def missing (cols : List String) : List String :=
  missingColumns requiredColumns (normalizeCols cols)

/-- Schema decision of `load_file`. -/
def load_file_check (cols : List String) : Except (List String) Unit :=
  if missing cols = [] then .ok () else .error (missing cols)

/-- The regex cleaning `str.replace(r"\.0$", "", regex=True)` of one cell. -/
def stripDot0 (s : String) : String :=
  if s.endsWith ".0" then s.dropRight 2 else s

/-- The in-place cleaning of the phone-number and IMEI columns
(`astype(str)` plus trailing-".0" stripping), run lines 238-240. -/
def clean (f : MtnFrame) : MtnFrame :=
  { f with callingNo := f.callingNo.map stripDot0,
           calledNo := f.calledNo.map stripDot0,
           imei := f.imei.map stripDot0 }

/-- The in-place temporal derivation (`to_datetime`, `.dt.hour`,
`.dt.day_name()`, `apply(self.get_time_period)`), run lines 288-291. -/
def derive (f : MtnFrame) (ts : List DateTime) : MtnFrame :=
  { f with eventDT := some ts,
           hourD := some (ts.map DateTime.hour),
           dowD := some (ts.map DateTime.dayName),
           periodD := some (ts.map (fun t => get_time_period t.hour)) }

/-- Fields of `calls.iloc[-1]` the run reads; `none` models the
`IndexError` on an empty table. The timestamp is read before the
`to_datetime` conversion, hence the raw string. -/
structure MtnLast where
  time : String
  lat : NumCell
  lon : NumCell
  calling : String
  called : String
  dur : NumCell
  ctype : String
  deriving DecidableEq

/-- Extraction of the last row; `last_call.get("call_type", "VOICE")`
defaults only when the column is absent, while a present NaN cell renders
as "nan". -/
def lastRow (f : MtnFrame) : Option MtnLast :=
  if f.nRows = 0 then none
  else some
    { time := f.eventDateTime.getLastD ""
      lat := f.latitude.getLastD none
      lon := f.longitude.getLastD none
      calling := f.callingNo.getLastD ""
      called := f.calledNo.getLastD ""
      dur := f.duration.getLastD none
      ctype := match f.callType with
        | none => "VOICE"
        | some col => strCellStr (col.getLastD none) }

/-- The `last_call_details` dictionary. -/
structure MtnLastCall where
  time : String
  location : String
  address : String
  calling : String
  called : String
  durationStr : String
  ctype : String
  deriving DecidableEq

/-- One period's most-frequent-location record. -/
structure PeriodLoc where
  lat : Rat
  lon : Rat
  count : Nat
  address : String
  deriving DecidableEq

/-- The fixed period iteration order of the run. -/
def periodNames : List String := ["Night", "Morning", "Afternoon", "Evening"]

/-- The (latitude, longitude) cells of the rows falling in one period
(`calls[calls["period"] == period]`). -/
def periodRows2 (f : MtnFrame) (p : String) : List (NumCell × NumCell) :=
  selectBy ((f.periodD.getD []).map (fun q => q == p)) (f.latitude.zip f.longitude)

/-- The (latitude, longitude, azimuth) cells of the rows of one period. -/
def periodRows3 (f : MtnFrame) (p : String) : List (NumCell × NumCell × NumCell) :=
  selectBy ((f.periodD.getD []).map (fun q => q == p))
    (f.latitude.zip (f.longitude.zip f.azimuth))

/-- The `period_locations` loop (run lines 294-305): for each nonempty
period, group by coordinates, take the arg-max group (raising on an empty
group list, i.e. when every coordinate of the period is NaN), and reverse-
geocode it through the shared cache. -/
def periodLocsAux (geo : GeoFn) (f : MtnFrame) :
    List String → GeoCache → List GeoKey → List (String × PeriodLoc) →
    Option String × List (String × PeriodLoc) × GeoCache × List GeoKey
  | [], cache, lks, acc => (none, acc, cache, lks)
  | p :: rest, cache, lks, acc =>
    let rows := periodRows2 f p
    if rows.length = 0 then periodLocsAux geo f rest cache lks acc
    else
      let keys := rows.filterMap (fun r =>
        match r.1, r.2 with
        | some x, some y => some (x, y)
        | _, _ => none)
      match argmaxFirst (groupbySize keys) with
      | none => (some "attempt to get argmax of an empty sequence", acc, cache, lks)
      | some kc =>
        let g := get_location_name geo cache (some kc.1.1, some kc.1.2)
        periodLocsAux geo f rest g.cache (lks ++ g.lookups)
          (acc ++ [(p, ⟨kc.1.1, kc.1.2, kc.2, g.address⟩)])

/-- Reverse-geocode a list of keys in order through the cache, collecting
the network-bound lookups performed. -/
def geocodeFold (geo : GeoFn) :
    GeoCache → List GeoKey → List GeoKey → GeoCache × List GeoKey
  | cache, lks, [] => (cache, lks)
  | cache, lks, k :: rest =>
    let g := get_location_name geo cache k
    geocodeFold geo g.cache (lks ++ g.lookups) rest

/-- The per-period marker loop inside `generate_map_with_features`
(lines 464-490): re-derives each period's arg-max coordinate pair, takes
the mode of the azimuths at that exact coordinate (raising when they are
all NaN), and reverse-geocodes the pair for the popup. -/
def mapPeriodLoop (geo : GeoFn) (f : MtnFrame) :
    List String → GeoCache → List GeoKey → Option String × GeoCache × List GeoKey
  | [], cache, lks => (none, cache, lks)
  | p :: rest, cache, lks =>
    let rows := periodRows3 f p
    if rows.length = 0 then mapPeriodLoop geo f rest cache lks
    else
      let keys := rows.filterMap (fun r =>
        match r.1, r.2.1 with
        | some x, some y => some (x, y)
        | _, _ => none)
      match argmaxFirst (groupbySize keys) with
      | none => (some "attempt to get argmax of an empty sequence", cache, lks)
      | some kc =>
        let azs := rows.filterMap (fun r =>
          if pyEqCell r.1 (some kc.1.1) && pyEqCell r.2.1 (some kc.1.2) then r.2.2 else none)
        if azs.length = 0 then (some "index 0 is out of bounds for axis 0 with size 0", cache, lks)
        else
          let g := get_location_name geo cache (some kc.1.1, some kc.1.2)
          mapPeriodLoop geo f rest g.cache (lks ++ g.lookups)

/-- Data and geocoding work of `generate_map_with_features`: raise on no
valid coordinates or an empty (lat, lon, azimuth) grouping; otherwise
geocode every tower marker, the top tower, and each period's marker. The
caught exception is re-raised, so a failure here fails the run. -/
def mapStep (geo : GeoFn) (cache : GeoCache) (f : MtnFrame) :
    Option String × GeoCache × List GeoKey :=
  if (pairKeys f.latitude f.longitude).length = 0 then
    (some "No valid location data available", cache, [])
  else
    let locationCounts := groupbySize (tripleKeysR f.latitude f.longitude f.azimuth)
    match argmaxFirst locationCounts with
    | none => (some "attempt to get argmax of an empty sequence", cache, [])
    | some top =>
      let g1 := geocodeFold geo cache []
        (locationCounts.map (fun r => (some r.1.1, some r.1.2.1)))
      let g2 := get_location_name geo g1.1 (some top.1.1, some top.1.2.1)
      mapPeriodLoop geo f periodNames g2.cache (g1.2 ++ g2.lookups)

/-- The data series plotted by `generate_statistical_charts`: the duration
histogram input, the period breakdown, and the top-10 called numbers —
the one breakdown truncated at 10 instead of 5. -/
structure MtnStatChart where
  durations : List NumCell
  periodCounts : List (String × Nat)
  topCalled : List (String × Nat)
  deriving DecidableEq

/-- Model of `generate_statistical_charts` (its plotted data; rendering is
file output). -/
def generate_statistical_charts (f : MtnFrame) : MtnStatChart :=
  { durations := f.duration
    periodCounts := value_counts ((f.periodD.getD []).map some)
    topCalled := (value_counts (f.calledNo.map some)).take 10 }

/-- The five visualization-generation calls of the run (lines 310-321) in
order, with the visualization key recorded after each successful call.
`rfail i` models an I/O or rendering exception inside step `i` (none of the
generators swallows its exception — the two with handlers log and
re-raise — so the first failure aborts the phase). -/
def vizPhase (geo : GeoFn) (rfail : Nat → Bool) (cache : GeoCache) (f : MtnFrame) :
    List (String × String) × Option String × GeoCache × List GeoKey :=
  if rfail 0 then ([], some "failed to render the call distribution charts", cache, [])
  else
    let v1 := [("hourly", "hourly_distribution.png"), ("daily", "day_distribution.png")]
    if rfail 1 then (v1, some "failed to render the location plot", cache, [])
    else
      let v2 := v1 ++ [("locations", "location_plot.png")]
      match mapStep geo cache f with
      | (some e, c1, lk1) => (v2, some e, c1, lk1)
      | (none, c1, lk1) =>
        if rfail 2 then (v2, some "failed to save the map", c1, lk1)
        else
          let v3 := v2 ++ [("map", "MTN_CDR_Map.html")]
          if rfail 3 then (v3, some "failed to render the network graph", c1, lk1)
          else
            let v4 := v3 ++ [("network", "call_network.html")]
            let _chart := generate_statistical_charts f
            if rfail 4 then (v4, some "failed to render the statistical charts", c1, lk1)
            else (v4 ++ [("stats", "statistical_analysis.png")], none, c1, lk1)

/-- Model of `generate_insights`: recomputes the peak hour, top device and
top contact from the already-derived columns; `none` models the raise on an
empty series (unreachable after a nonempty run). -/
def generate_insights (f : MtnFrame) (plocs : List (String × PeriodLoc))
    (lc : MtnLastCall) : Option (List String) :=
  match (value_counts ((f.hourD.getD []).map some)).head?,
      (value_counts (f.imei.map some)).head?,
      (value_counts (f.calledNo.map some)).head? with
  | some hp, some dp, some cp =>
    some (["Peak calling hour: " ++ toString hp.1 ++ ":00 with "
        ++ toString hp.2 ++ " calls",
      "Most used device: IMEI " ++ dp.1 ++ " with " ++ toString dp.2 ++ " calls",
      "Average call duration: " ++ fmtCell 2 (colMean f.duration) ++ " seconds",
      "Most contacted number: " ++ cp.1 ++ " with " ++ toString cp.2 ++ " calls",
      "Last call was to " ++ lc.called ++ " at " ++ lc.time
        ++ " from location " ++ lc.location]
      ++ plocs.map (fun pl => "Most frequent " ++ pl.1.toLower ++ " location: "
          ++ pl.2.address ++ " with " ++ toString pl.2.count ++ " calls"))
  | _, _, _ => none

/-- The last-call block appended to the results (run lines 327-336). -/
def lastBlock (lc : MtnLastCall) : List (String × String) :=
  [("\nLast Call Information", ""),
   ("Time", lc.time),
   ("Location", lc.location),
   ("Address", lc.address),
   ("Calling Number", lc.calling),
   ("Called Number", lc.called),
   ("Duration", lc.durationStr),
   ("Type", lc.ctype)]

/-- The per-period block appended to the results (run lines 339-345). -/
def periodBlock (plocs : List (String × PeriodLoc)) : List (String × String) :=
  ("\nMost Frequent Locations by Time Period", "") ::
    (plocs.map (fun pl =>
      [(pl.1 ++ " Location", "Lat: " ++ fmtFixed 5 pl.2.lat
          ++ ", Lon: " ++ fmtFixed 5 pl.2.lon),
       (pl.1 ++ " Calls", toString pl.2.count),
       (pl.1 ++ " Address", pl.2.address)])).flatten

/-- The `try:` body of `MTN.AnalysisThread.run`. Besides the `BodyOut` it
returns the final geolocation cache and the list of network-bound lookups
performed, both starting empty because `__init__` creates the cache fresh
for every thread. -/
def body (geo : GeoFn) (rfail : Nat → Bool) (f : MtnFrame) :
    BodyOut MtnFrame × GeoCache × List GeoKey :=
  let f1 := clean f
  let p0 := [("Analyzing call patterns...", 0)]
  match lastRow f1 with
  | none => (⟨p0, .error "single positional indexer is out-of-bounds", f1, [], []⟩, [], [])
  | some last =>
    let g0 := get_location_name geo [] (last.lat, last.lon)
    let lc : MtnLastCall :=
      { time := last.time
        location := "Lat: " ++ fmtCell 5 last.lat ++ ", Lon: " ++ fmtCell 5 last.lon
        address := g0.address
        calling := last.calling
        called := last.called
        durationStr := fmtCell 1 last.dur ++ " sec"
        ctype := last.ctype }
    let topContacts := (value_counts (f1.calledNo.map some)).take 5
    let results1 :=
      [("Total Calls", toString f1.nRows),
       ("Unique Callers", toString (firstUniques f1.callingNo).length),
       ("Total Call Duration (sec)", pyFloatStr (colSum f1.duration)),
       ("Average Call Duration (sec)", fmtCell 2 (colMean f1.duration)),
       ("Top 5 Contacts", "Frequency")]
      ++ topContacts.map (fun p => (p.1, toString p.2))
    let p1 := p0 ++ [("Analyzing device information...", 6)]
    let imeiCounts := (value_counts (f1.imei.map some)).take 5
    let results2 := results1 ++ ("Top 5 IMEIs", "Frequency")
      :: imeiCounts.map (fun p => (p.1, toString p.2))
    let p2 := p1 ++ [("Analyzing geolocations...", 13)]
    match parseTsList f1.eventDateTime with
    | none => (⟨p2, .error "time data does not match format", f1, [], []⟩, g0.cache, g0.lookups)
    | some ts =>
      let f2 := derive f1 ts
      match periodLocsAux geo f2 periodNames g0.cache g0.lookups [] with
      | (some e, _, c1, lk1) => (⟨p2, .error e, f2, [], []⟩, c1, lk1)
      | (none, plocs, c1, lk1) =>
        let p3 := p2 ++ [("Generating advanced visualizations...", 20)]
        match vizPhase geo rfail c1 f2 with
        | (viz, some e, c2, lk2) => (⟨p3, .error e, f2, viz, []⟩, c2, lk1 ++ lk2)
        | (viz, none, c2, lk2) =>
          let p4 := p3 ++ [("Finalizing results...", 26)]
          let results3 := results2 ++ lastBlock lc ++ periodBlock plocs
          match generate_insights f2 plocs lc with
          | none => (⟨p4, .error "attempt to get argmax of an empty sequence",
              f2, viz, []⟩, c2, lk1 ++ lk2)
          | some ins => (⟨p4, .ok results3, f2, viz, ins⟩, c2, lk1 ++ lk2)

/-- Observable state of one finished run: the emitted trace, the mutated
dataframe, the thread's final geolocation cache, the network-bound lookups
performed, and the visualization map. -/
structure RunState where
  trace : List Event
  frame : Option MtnFrame
  cache : GeoCache
  lookups : List GeoKey
  viz : List (String × String)
  deriving DecidableEq

/-- Model of `MTNCDRAnalyzer.start_analysis` followed by the run: a fresh
`AnalysisThread` is constructed for every run and its `__init__` sets
`self.geolocation_cache = {}`, so each run starts from the empty cache. -/
def start_analysis (geo : GeoFn) (rfail : Nat → Bool) (df : Option MtnFrame) : RunState :=
  match df with
  | none => ⟨[.error "No data loaded for analysis"], none, [], [], []⟩
  | some f =>
    let b := body geo rfail f
    ⟨assemble b.1, some b.1.frame, b.2.1, b.2.2, b.1.viz⟩

/-- Two consecutive runs of the same process over the same loaded file:
each run constructs its own thread (and therefore its own empty cache). -/
def processTwoRuns (geo : GeoFn) (rfail : Nat → Bool) (df : Option MtnFrame) :
    RunState × RunState :=
  (start_analysis geo rfail df, start_analysis geo rfail df)

/-- Model of `MTN.AnalysisThread.run`: the emitted event trace. -/
def run (geo : GeoFn) (rfail : Nat → Bool) (df : Option MtnFrame) : List Event :=
  (start_analysis geo rfail df).trace

end MTN

/-! ## Trace well-formedness predicate and concrete fixtures -/

/-- The orchestration contract of one run trace: the trace ends in exactly
one terminal event — either one completion and no error, or one error and
no completion. -/
def goodTrace (tr : List Event) : Prop :=
  match tr.getLast? with
  | some (.complete _ _ _) => tr.countP Event.isCompl = 1 ∧ tr.countP Event.isErr = 0
  | some (.error _) => tr.countP Event.isErr = 1 ∧ tr.countP Event.isCompl = 0
  | _ => False

/-- A geocoder that resolves every key to the address "Addr". -/
def geoFound : GeoFn := fun _ => .found "Addr"

/-- A render oracle under which no rendering step fails. -/
def allRenderOk : Nat → Bool := fun _ => false

/-- A render oracle under which exactly rendering step 3 of 5 (index 2,
the map) raises. -/
def vizFail3 : Nat → Bool := fun i => i == 2

/-- A one-row MTN CDR table with one valid coordinate pair. -/
def mtnOneRow : MTN.MtnFrame :=
  { callingNo := ["233111.0"], calledNo := ["233222.0"], imei := ["86001.0"],
    duration := [some 10], eventDateTime := ["2024-01-01 10:00:00"],
    latitude := [some 5], longitude := [some 6], azimuth := [some 90],
    callType := none, eventDT := none, hourD := none, dowD := none, periodD := none }

/-- An MTN CDR table with zero rows (every required column present, all
empty), with an arbitrary optional `call_type` column. -/
def mtnEmptyFrame (ct : Option (List StrCell)) : MTN.MtnFrame :=
  { callingNo := [], calledNo := [], imei := [], duration := [],
    eventDateTime := [], latitude := [], longitude := [], azimuth := [],
    callType := ct, eventDT := none, hourD := none, dowD := none, periodD := none }

/-- An AirtelTigo Cash table with zero rows, with an arbitrary optional
"Completion Time" column. -/
def cashEmptyFrame (ct : Option (List String)) : ATCash.CashFrame :=
  { paidIn := [], withdrawn := [], balance := [], oppositeParty := [],
    transactionStatus := [], completionTime := ct,
    dateD := none, hourD := none, dowD := none }

/-- A Mobile Money table with zero rows, with an arbitrary optional
"DATE" column. -/
def momoEmptyFrame (dr : Option (List String)) : Momo.MomoFrame :=
  { transactionType := [], fromAmount := [], fromAccount := [],
    fromAccountName := [], fromPhone := [], toAccount := [],
    toAccountName := [], toPhone := [], dateRaw := dr,
    dateD := none, hourD := none, dowD := none }

/-- An AirtelTigo CDR table with zero rows. -/
def atcdrEmptyFrame : ATCDR.AtcdrFrame :=
  { ownerNumber := [], outgoing := [], incoming := [], duration := [],
    callType := [], eventDateTime := [], latitude := [], longitude := [],
    imei := [], imsi := [], cellDetails := [], eventDT := none,
    hourD := none, dowD := none, periodD := none }

/-- A one-row AirtelTigo CDR table with integral phone values (so the
`Int64` casts succeed) and a parseable timestamp. -/
def atcdrOneRow : ATCDR.AtcdrFrame :=
  { ownerNumber := [some 233], outgoing := [some 555], incoming := [none],
    duration := [some 60], callType := [some "Voice"],
    eventDateTime := ["2024-01-01 10:00:00"],
    latitude := [some 5], longitude := [some (-1)],
    imei := [some "I1"], imsi := [some "S1"], cellDetails := [some "C1"],
    eventDT := none, hourD := none, dowD := none, periodD := none }

/-- A validated one-row Mobile Money table whose whole `FROM AMOUNT`
column is NaN, so the subset selected for the average is empty. -/
def momoNaNFrame : Momo.MomoFrame :=
  { transactionType := [some "OTHER"], fromAmount := [none],
    fromAccount := [some "A1"], fromAccountName := [some "Alice"],
    fromPhone := [some "024"], toAccount := [some "B1"],
    toAccountName := [some "Bob"], toPhone := [some "055"],
    dateRaw := none, dateD := none, hourD := none, dowD := none }

/-- A validated one-row Mobile Money table with a parseable "DATE"
column. -/
def momoDatedFrame : Momo.MomoFrame :=
  { transactionType := [some "CREDIT"], fromAmount := [some 5],
    fromAccount := [some "A1"], fromAccountName := [some "Alice"],
    fromPhone := [some "024"], toAccount := [some "B1"],
    toAccountName := [some "Bob"], toPhone := [some "055"],
    dateRaw := some ["2024-01-01 10:00:00"],
    dateD := none, hourD := none, dowD := none }

/-- A validated AirtelTigo Cash table in which no row has a positive
"Paid In" or "Withdrawn" value. -/
def cashNoPositives : ATCash.CashFrame :=
  { paidIn := [some 0, none], withdrawn := [none, some 0],
    balance := [some 1, some 2], oppositeParty := [some "X", some "Y"],
    transactionStatus := [some "Completed", some "Failed"],
    completionTime := none, dateD := none, hourD := none, dowD := none }

end CDR

/-! # Supporting lemmas -/

namespace CDR

theorem mem_firstUniques [DecidableEq α] (xs : List α) (v : α) :
    v ∈ firstUniques xs ↔ v ∈ xs := by
  induction xs using firstUniques.induct with
  | case1 => simp [firstUniques]
  | case2 x t ih =>
    simp only [firstUniques, List.mem_cons, ih, List.mem_filter]
    constructor
    · rintro (rfl | ⟨h, _⟩)
      · exact .inl rfl
      · exact .inr h
    · rintro (rfl | h)
      · exact .inl rfl
      · by_cases hvx : v = x
        · exact .inl hvx
        · exact .inr ⟨h, by simpa using hvx⟩

theorem length_filter_ne_add_count [DecidableEq α] (x : α) (t : List α) :
    (t.filter (fun y => y ≠ x)).length + t.count x = t.length := by
  induction t with
  | nil => simp
  | cons a t ih =>
    simp only [ne_eq, decide_not] at ih ⊢
    rw [List.filter_cons, List.count_cons]
    by_cases h : a = x <;> simp [h] <;> omega

theorem sum_counts_firstUniques [DecidableEq α] (xs : List α) :
    ((firstUniques xs).map (fun v => xs.count v)).sum = xs.length := by
  induction xs using firstUniques.induct with
  | case1 => simp [firstUniques]
  | case2 x t ih =>
    have hmap : (firstUniques (t.filter (fun y => y ≠ x))).map
        (fun v => (x :: t).count v)
        = (firstUniques (t.filter (fun y => y ≠ x))).map
          (fun v => (t.filter (fun y => y ≠ x)).count v) := by
      apply List.map_congr_left
      intro v hv
      have hvx : v ≠ x := by
        have hmem := (mem_firstUniques _ v).mp hv
        simpa using (List.mem_filter.mp hmem).2
      rw [List.count_cons_of_ne hvx,
        List.count_filter (p := fun y => decide (y ≠ x)) (by simpa using hvx)]
    rw [firstUniques, List.map_cons, List.sum_cons, hmap, ih, List.count_cons_self]
    have hsplit := length_filter_ne_add_count x t
    simp only [List.length_cons]
    omega

theorem value_counts_sorted [DecidableEq α] (xs : List (Option α)) :
    List.Sorted countGE (value_counts xs) :=
  List.sorted_insertionSort countGE _

theorem value_counts_counts_nonincreasing [DecidableEq α] (xs : List (Option α)) :
    List.Sorted (fun a b : Nat => b ≤ a) ((value_counts xs).map Prod.snd) :=
  List.Pairwise.map Prod.snd (fun _ _ h => h) (value_counts_sorted xs)

theorem value_counts_sum [DecidableEq α] (xs : List (Option α)) :
    ((value_counts xs).map Prod.snd).sum = (xs.filterMap id).length := by
  have hperm : ((value_counts xs).map Prod.snd).Perm
      (((firstUniques (xs.filterMap id)).map
        (fun v => (v, (xs.filterMap id).count v))).map Prod.snd) :=
    (List.perm_insertionSort countGE _).map Prod.snd
  rw [hperm.sum_eq, List.map_map]
  simpa [Function.comp] using sum_counts_firstUniques (xs.filterMap id)

theorem filterMap_id_length (xs : List (Option α)) (h : ∀ x ∈ xs, x ≠ none) :
    (xs.filterMap id).length = xs.length := by
  induction xs with
  | nil => simp
  | cons a t ih =>
    cases a with
    | none => exact absurd rfl (h none (List.mem_cons_self _ _))
    | some v =>
      simp [List.filterMap_cons, ih (fun x hx => h x (List.mem_cons_of_mem _ hx))]

theorem value_counts_sum_of_no_missing [DecidableEq α] (xs : List (Option α))
    (h : ∀ x ∈ xs, x ≠ none) :
    ((value_counts xs).map Prod.snd).sum = xs.length := by
  rw [value_counts_sum, filterMap_id_length xs h]

theorem assemble_terminal (o : BodyOut F) : goodTrace (assemble o) := by
  unfold goodTrace
  have hprog : ∀ p : Event → Bool,
      (∀ m n, p (Event.progress m n) = false) →
      (o.progress.map (fun p => Event.progress p.1 p.2)).countP p = 0 := by
    intro p hp
    rw [List.countP_eq_zero]
    intro e he
    rcases List.mem_map.mp he with ⟨q, _, rfl⟩
    simp [hp]
  cases ho : o.outcome with
  | ok rs =>
    rw [assemble, ho]
    rw [List.getLast?_concat]
    constructor
    · rw [List.countP_append, hprog Event.isCompl (fun _ _ => rfl)]
      simp [Event.isCompl]
    · rw [List.countP_append, hprog Event.isErr (fun _ _ => rfl)]
      simp [Event.isErr]
  | error e =>
    rw [assemble, ho]
    rw [List.getLast?_concat]
    constructor
    · rw [List.countP_append, hprog Event.isErr (fun _ _ => rfl)]
      simp [Event.isErr]
    · rw [List.countP_append, hprog Event.isCompl (fun _ _ => rfl)]
      simp [Event.isCompl]

theorem missingColumns_nil_iff (required present : List String) :
    missingColumns required present = [] ↔ ∀ c ∈ required, c ∈ present := by
  simp [missingColumns, List.filter_eq_nil_iff]

theorem mem_missingColumns {required present : List String} {X : String}
    (hX : X ∈ required) (habs : X ∉ present) :
    X ∈ missingColumns required present := by
  simp [missingColumns, List.mem_filter, hX, habs]

theorem loadCheckIsOk (required present : List String) :
    (if missingColumns required present = []
      then (Except.ok () : Except (List String) Unit)
      else .error (missingColumns required present)).isOk
      ↔ ∀ c ∈ required, c ∈ present := by
  rw [← missingColumns_nil_iff]
  by_cases h : missingColumns required present = [] <;>
    simp [h, Except.isOk, Except.toBool]

theorem loadCheckCases (required present : List String) :
    (if missingColumns required present = []
      then (Except.ok () : Except (List String) Unit)
      else .error (missingColumns required present)) = .ok () ∨
    (if missingColumns required present = []
      then (Except.ok () : Except (List String) Unit)
      else .error (missingColumns required present))
      = .error (missingColumns required present) := by
  by_cases h : missingColumns required present = [] <;> simp [h]

theorem selectBy_map_self_eq_nil (p : α → Bool) (xs : List α)
    (h : ∀ x ∈ xs, p x = false) : selectBy (xs.map p) xs = [] := by
  induction xs with
  | nil => rfl
  | cons a t ih =>
    have ha := h a (List.mem_cons_self _ _)
    have ht := ih (fun x hx => h x (List.mem_cons_of_mem _ hx))
    simp only [selectBy, List.map_cons, List.zip_cons_cons, List.filterMap_cons, ha] at ht ⊢
    simpa using ht

theorem filterMap_id_eq_nil {α : Type} (xs : List (Option α))
    (h : ∀ c ∈ xs, c = none) : xs.filterMap id = [] := by
  induction xs with
  | nil => rfl
  | cons a t ih =>
    have ha := h a (List.mem_cons_self _ _)
    subst ha
    simp [List.filterMap_cons, ih (fun x hx => h x (List.mem_cons_of_mem _ hx))]

/-! # Claim theorems -/

/-- C3: for every hour of day 0-23, `get_time_period` maps it to "Night"
iff it is in 0-5, "Morning" iff in 6-11, "Afternoon" iff in 12-17 and
"Evening" iff in 18-23; and a 3-row dataset with hours [5, 6, 23] yields
period counts Night 1, Morning 1, Evening 1. -/
theorem claim_C3 :
    (∀ h : Nat, h ≤ 23 →
      ((get_time_period h = "Night" ↔ h ≤ 5) ∧
       (get_time_period h = "Morning" ↔ 6 ≤ h ∧ h ≤ 11) ∧
       (get_time_period h = "Afternoon" ↔ 12 ≤ h ∧ h ≤ 17) ∧
       (get_time_period h = "Evening" ↔ 18 ≤ h ∧ h ≤ 23))) ∧
    value_counts (([5, 6, 23].map (fun h => get_time_period h)).map some)
      = [("Night", 1), ("Morning", 1), ("Evening", 1)] := by
  constructor
  · intro h hh
    interval_cases h <;> refine ⟨by decide, by decide, by decide, by decide⟩
  · with_unfolding_all rfl

/-- Witness for C3 at the boundary hours 5 and 6. -/
theorem claim_C3_witness :
    ((get_time_period 5 = "Night" ↔ (5 : Nat) ≤ 5) ∧
     (get_time_period 5 = "Morning" ↔ 6 ≤ 5 ∧ (5 : Nat) ≤ 11) ∧
     (get_time_period 5 = "Afternoon" ↔ 12 ≤ 5 ∧ (5 : Nat) ≤ 17) ∧
     (get_time_period 5 = "Evening" ↔ 18 ≤ 5 ∧ (5 : Nat) ≤ 23)) ∧
    ((get_time_period 6 = "Night" ↔ (6 : Nat) ≤ 5) ∧
     (get_time_period 6 = "Morning" ↔ 6 ≤ 6 ∧ (6 : Nat) ≤ 11) ∧
     (get_time_period 6 = "Afternoon" ↔ 12 ≤ 6 ∧ (6 : Nat) ≤ 17) ∧
     (get_time_period 6 = "Evening" ↔ 18 ≤ 6 ∧ (6 : Nat) ≤ 23)) :=
  ⟨claim_C3.1 5 (by decide), claim_C3.1 6 (by decide)⟩

/-- C4: for each analyzer, the schema check over the normalized column
names accepts iff every required column is present; every absent required
column appears in the enumerated missing list; the check either accepts or
reports exactly that list; and a rejected load leaves no dataframe, so the
run emits only the no-data error and performs no aggregation. -/
theorem claim_C4 :
    (∀ cols : List String,
      ((ATCash.load_file_check cols).isOk ↔
        ∀ c ∈ ATCash.requiredColumns, c ∈ ATCash.normalizeCols cols) ∧
      (∀ X ∈ ATCash.requiredColumns,
        X ∉ ATCash.normalizeCols cols → X ∈ ATCash.missing cols) ∧
      (ATCash.load_file_check cols = .ok () ∨
       ATCash.load_file_check cols = .error (ATCash.missing cols))) ∧
    (∀ cols : List String,
      ((Momo.load_file_check cols).isOk ↔
        ∀ c ∈ Momo.requiredColumns, c ∈ Momo.normalizeCols cols) ∧
      (∀ X ∈ Momo.requiredColumns,
        X ∉ Momo.normalizeCols cols → X ∈ Momo.missing cols) ∧
      (Momo.load_file_check cols = .ok () ∨
       Momo.load_file_check cols = .error (Momo.missing cols))) ∧
    (∀ cols : List String,
      ((MTN.load_file_check cols).isOk ↔
        ∀ c ∈ MTN.requiredColumns, c ∈ MTN.normalizeCols cols) ∧
      (∀ X ∈ MTN.requiredColumns,
        X ∉ MTN.normalizeCols cols → X ∈ MTN.missing cols) ∧
      (MTN.load_file_check cols = .ok () ∨
       MTN.load_file_check cols = .error (MTN.missing cols))) ∧
    (∀ cols : List String,
      ((ATCDR.load_file_check cols).isOk ↔
        ∀ c ∈ ATCDR.requiredColumns, c ∈ ATCDR.normalizeCols cols) ∧
      (∀ X ∈ ATCDR.requiredColumns,
        X ∉ ATCDR.normalizeCols cols → X ∈ ATCDR.missing cols) ∧
      (ATCDR.load_file_check cols = .ok () ∨
       ATCDR.load_file_check cols = .error (ATCDR.missing cols))) ∧
    (ATCash.run none = [Event.error "No data loaded for analysis"] ∧
     Momo.run none = [Event.error "No data loaded for analysis"] ∧
     MTN.run geoFound allRenderOk none = [Event.error "No data loaded for analysis"] ∧
     ATCDR.run none = [Event.error "No data loaded for analysis"]) := by
  exact ⟨fun cols => ⟨loadCheckIsOk _ _,
          fun _ hX habs => mem_missingColumns hX habs, loadCheckCases _ _⟩,
    fun cols => ⟨loadCheckIsOk _ _,
          fun _ hX habs => mem_missingColumns hX habs, loadCheckCases _ _⟩,
    fun cols => ⟨loadCheckIsOk _ _,
          fun _ hX habs => mem_missingColumns hX habs, loadCheckCases _ _⟩,
    fun cols => ⟨loadCheckIsOk _ _,
          fun _ hX habs => mem_missingColumns hX habs, loadCheckCases _ _⟩,
    rfl, rfl, rfl, rfl⟩

/-- Witness for C4: a trimmed column set missing "Balance" is rejected
with "Balance" in the enumerated list. -/
theorem claim_C4_witness :
    "Balance" ∈ ATCash.missing ["Paid In ", " Withdrawn", "Opposite Party"] :=
  (claim_C4.1 ["Paid In ", " Withdrawn", "Opposite Party"]).2.1 "Balance"
    (of_decide_eq_true (by with_unfolding_all rfl))
    (of_decide_eq_true (by with_unfolding_all rfl))

/-- C5: the counts of every `value_counts` ranking and of every
count-sorted grouping are non-increasing; when the column has no missing
entries, the category counts (before truncation) sum to the row count; the
rankings are truncated at N=5 (e.g. the mobile-money top senders), except
the statistical chart's top-called-numbers breakdown, truncated at N=10. -/
theorem claim_C5 :
    (∀ xs : List StrCell,
      List.Sorted (fun a b : Nat => b ≤ a) ((value_counts xs).map Prod.snd)) ∧
    (∀ l : List ((String × String × String) × Nat),
      List.Sorted (fun a b : Nat => b ≤ a) ((sortByCountDesc l).map Prod.snd)) ∧
    (∀ xs : List StrCell, (∀ x ∈ xs, x ≠ none) →
      ((value_counts xs).map Prod.snd).sum = xs.length) ∧
    (∀ f : MTN.MtnFrame, (MTN.generate_statistical_charts f).topCalled
      = (value_counts (f.calledNo.map some)).take 10) ∧
    (∀ f : Momo.MomoFrame, Momo.topSenders f
      = (sortByCountDesc (groupbySize
          (tripleKeysS f.fromAccount f.fromAccountName f.fromPhone))).take 5) :=
  ⟨fun xs => value_counts_counts_nonincreasing xs,
   fun l => List.Pairwise.map Prod.snd (fun _ _ h => h)
     (List.sorted_insertionSort countGE l),
   fun xs h => value_counts_sum_of_no_missing xs h,
   fun _ => rfl, fun _ => rfl⟩

/-- Witness for C5: a 3-row column with no missing entries whose category
counts sum to 3. -/
theorem claim_C5_witness :
    ((value_counts [some "a", some "b", some "a"]).map Prod.snd).sum
      = [some "a", some "b", some "a"].length :=
  claim_C5.2.2.1 [some "a", some "b", some "a"]
    (of_decide_eq_true (by with_unfolding_all rfl))

/-- C6: numeric coercion at load time is idempotent, drops no rows, and
turns every entry that fails numeric parsing into exactly zero. -/
theorem claim_C6 :
    (∀ xs : List RawCell, coerceNumeric (coerceNumeric xs) = coerceNumeric xs) ∧
    (∀ xs : List RawCell, (coerceNumeric xs).length = xs.length) ∧
    (∀ (xs : List RawCell) (i : Nat) (c : RawCell), xs[i]? = some c →
      to_numeric c = none → (coerceNumeric xs)[i]? = some (.num 0)) := by
  refine ⟨?_, ?_, ?_⟩
  · intro xs
    simp [coerceNumeric, List.map_map, Function.comp, to_numeric]
  · intro xs
    simp [coerceNumeric]
  · intro xs i c hc hn
    simp [coerceNumeric, List.getElem?_map, hc, hn]

/-- Witness for C6: a non-numeric entry coerces to exactly zero. -/
theorem claim_C6_witness :
    (coerceNumeric [RawCell.str "12.5x"])[0]? = some (.num 0) :=
  claim_C6.2.2 [RawCell.str "12.5x"] 0 (RawCell.str "12.5x") rfl
    (of_decide_eq_true (by with_unfolding_all rfl))

/-- C7: every run of every analyzer ends in exactly one terminal event: a
failed run emits no completion and exactly one error event carrying a
single descriptive string, while a successful run ends with exactly one
completion event carrying the results, the visualization map, and the
insights together. -/
theorem claim_C7 :
    (∀ (geo : GeoFn) (rfail : Nat → Bool) (df : Option MTN.MtnFrame),
      goodTrace (MTN.run geo rfail df)) ∧
    (∀ df : Option ATCash.CashFrame, goodTrace (ATCash.run df)) ∧
    (∀ df : Option Momo.MomoFrame, goodTrace (Momo.run df)) ∧
    (∀ df : Option ATCDR.AtcdrFrame, goodTrace (ATCDR.run df)) := by
  refine ⟨?_, ?_, ?_, ?_⟩
  · rintro geo rfail (_ | f)
    · exact ⟨rfl, rfl⟩
    · exact assemble_terminal (MTN.body geo rfail f).1
  · rintro (_ | f)
    · exact ⟨rfl, rfl⟩
    · exact assemble_terminal (ATCash.body f)
  · rintro (_ | f)
    · exact ⟨rfl, rfl⟩
    · exact assemble_terminal (Momo.body f)
  · rintro (_ | f)
    · exact ⟨rfl, rfl⟩
    · exact assemble_terminal (ATCDR.body f)

/-- C10: for every zero-row dataset passing the required-column check, each
analyzer's run emits an error event and never a completion event — every
pipeline reaches an access on an empty selection (`iloc[-1]` of the empty
table for MTN, `iloc[0]`/`index[0]` of an empty top-N ranking for the
mobile-money and cash pipelines, and `idxmax` of an empty period series
for the AirtelTigo CDR pipeline). -/
theorem claim_C10 :
    (∀ ct, (ATCash.run (some (cashEmptyFrame ct))).countP Event.isErr = 1 ∧
      (ATCash.run (some (cashEmptyFrame ct))).countP Event.isCompl = 0 ∧
      (ATCash.run (some (cashEmptyFrame ct))).getLast? = some (.error
        "Analysis failed: index 0 is out of bounds for axis 0 with size 0")) ∧
    (∀ dr, (Momo.run (some (momoEmptyFrame dr))).countP Event.isErr = 1 ∧
      (Momo.run (some (momoEmptyFrame dr))).countP Event.isCompl = 0 ∧
      (Momo.run (some (momoEmptyFrame dr))).getLast? = some (.error
        "Analysis failed: single positional indexer is out-of-bounds")) ∧
    (∀ (geo : GeoFn) (rfail : Nat → Bool) (ct),
      (MTN.run geo rfail (some (mtnEmptyFrame ct))).countP Event.isErr = 1 ∧
      (MTN.run geo rfail (some (mtnEmptyFrame ct))).countP Event.isCompl = 0 ∧
      (MTN.run geo rfail (some (mtnEmptyFrame ct))).getLast? = some (.error
        "Analysis failed: single positional indexer is out-of-bounds")) ∧
    ((ATCDR.run (some atcdrEmptyFrame)).countP Event.isErr = 1 ∧
      (ATCDR.run (some atcdrEmptyFrame)).countP Event.isCompl = 0 ∧
      (ATCDR.run (some atcdrEmptyFrame)).getLast? = some (.error
        "Analysis failed: attempt to get argmax of an empty sequence")) := by
  refine ⟨fun ct => ⟨?_, ?_, ?_⟩, fun dr => ⟨?_, ?_, ?_⟩,
    fun geo rfail ct => ⟨?_, ?_, ?_⟩, ⟨?_, ?_, ?_⟩⟩ <;> with_unfolding_all rfl

theorem colMean_eq_none (xs : List NumCell) (h : ∀ c ∈ xs, c = none) :
    colMean xs = none := by
  unfold colMean
  rw [filterMap_id_eq_nil xs h]
  rfl

theorem assemble_error_counts {F : Type} (o : BodyOut F) (e : String)
    (he : o.outcome = .error e) :
    (assemble o).countP Event.isCompl = 0 ∧ (assemble o).countP Event.isErr = 1 := by
  have hprog : ∀ p : Event → Bool,
      (∀ m n, p (Event.progress m n) = false) →
      (o.progress.map (fun q => Event.progress q.1 q.2)).countP p = 0 := by
    intro p hp
    rw [List.countP_eq_zero]
    intro ev hev
    rcases List.mem_map.mp hev with ⟨q, _, rfl⟩
    simp [hp]
  rw [assemble, he]
  constructor
  · rw [List.countP_append, hprog Event.isCompl (fun _ _ => rfl)]
    simp [Event.isCompl]
  · rw [List.countP_append, hprog Event.isErr (fun _ _ => rfl)]
    simp [Event.isErr]

theorem histRaises_of_allNaN (xs : List NumCell) (hn : xs ≠ [])
    (ha : ∀ c ∈ xs, c = none) : histRaises xs = true := by
  simp [histRaises, filterMap_id_eq_nil xs ha, hn]

theorem momo_body_is_error (f : Momo.MomoFrame)
    (hh : histRaises f.fromAmount = true) :
    ∃ e, (Momo.body f).outcome = .error e := by
  simp only [Momo.body, hh]
  repeat' (first | (exact ⟨_, rfl⟩) | split)

/-- C1 is false as stated: on a validated one-row mobile-money table whose
whole `FROM AMOUNT` column is NaN (so the subset selected for the average
is empty), the Totals step formats the NaN mean as "₵nan", not "N/A", and
the run then dies at the amount-distribution histogram (matplotlib raises
on the all-NaN series), emitting an error event instead of a completion. -/
theorem claim_C1_counterexample :
    (Momo.totalsResults momoNaNFrame)[4]?
      = some ("Average Transaction Amount", "₵nan") ∧
    ("Average Transaction Amount", "N/A") ∉ Momo.totalsResults momoNaNFrame ∧
    (Momo.run (some momoNaNFrame)).countP Event.isCompl = 0 ∧
    (Momo.run (some momoNaNFrame)).countP Event.isErr = 1 ∧
    (Momo.run (some momoNaNFrame)).getLast? = some (.error
      "Analysis failed: autodetected range of [nan, nan] is not finite") :=
  ⟨by with_unfolding_all rfl,
   of_decide_eq_true (by with_unfolding_all rfl),
   by with_unfolding_all rfl,
   by with_unfolding_all rfl,
   by with_unfolding_all rfl⟩

/-- C1 (amended): no analyzer ever reaches a division-by-zero fault
(pandas returns a NaN mean for an empty selection), but only the
AirtelTigo Cash analyzer guards its averages, reporting "N/A" whenever the
filtered subset is empty; the mobile-money Totals step instead formats the
NaN mean of an empty (all-NaN) selection as "₵nan" in its results list,
and such a run never completes — it fails at the amount-distribution
histogram with an error event. -/
theorem claim_C1_amended :
    (∀ f : ATCash.CashFrame, (∀ c ∈ f.paidIn, cellPos c = false) →
      ("Average Deposit Amount", "N/A") ∈ ATCash.totalsResults f) ∧
    (∀ f : ATCash.CashFrame, (∀ c ∈ f.withdrawn, cellPos c = false) →
      ("Average Withdrawal Amount", "N/A") ∈ ATCash.totalsResults f) ∧
    (∀ f : Momo.MomoFrame, (∀ c ∈ f.fromAmount, c = none) →
      ("Average Transaction Amount", "₵nan") ∈ Momo.totalsResults f) ∧
    (∀ f : Momo.MomoFrame, f.fromAmount ≠ [] → (∀ c ∈ f.fromAmount, c = none) →
      (Momo.run (some f)).countP Event.isCompl = 0 ∧
      (Momo.run (some f)).countP Event.isErr = 1) := by
  refine ⟨?_, ?_, ?_, ?_⟩
  · intro f h
    have hsel := selectBy_map_self_eq_nil cellPos f.paidIn h
    unfold ATCash.totalsResults
    rw [hsel]
    simp [colMean]
  · intro f h
    have hsel := selectBy_map_self_eq_nil cellPos f.withdrawn h
    unfold ATCash.totalsResults
    rw [hsel]
    simp [colMean]
  · intro f h
    unfold Momo.totalsResults
    rw [colMean_eq_none f.fromAmount h]
    simp [fmtCommaCell]
  · intro f hn ha
    obtain ⟨e, he⟩ := momo_body_is_error f (histRaises_of_allNaN f.fromAmount hn ha)
    exact assemble_error_counts (Momo.body f) e he

/-- Witness for C1 (amended) on concrete no-positive and all-NaN tables. -/
theorem claim_C1_witness :
    (("Average Deposit Amount", "N/A") ∈ ATCash.totalsResults cashNoPositives) ∧
    (("Average Withdrawal Amount", "N/A") ∈ ATCash.totalsResults cashNoPositives) ∧
    (("Average Transaction Amount", "₵nan") ∈ Momo.totalsResults momoNaNFrame) ∧
    ((Momo.run (some momoNaNFrame)).countP Event.isCompl = 0 ∧
     (Momo.run (some momoNaNFrame)).countP Event.isErr = 1) :=
  ⟨claim_C1_amended.1 cashNoPositives (of_decide_eq_true (by with_unfolding_all rfl)),
   claim_C1_amended.2.1 cashNoPositives (of_decide_eq_true (by with_unfolding_all rfl)),
   claim_C1_amended.2.2.1 momoNaNFrame (of_decide_eq_true (by with_unfolding_all rfl)),
   claim_C1_amended.2.2.2 momoNaNFrame
     (of_decide_eq_true (by with_unfolding_all rfl))
     (of_decide_eq_true (by with_unfolding_all rfl))⟩

/-- C2 is false as stated: on a run whose rendering step 3 of 5 (the map
save) raises, the later steps do not execute — the artifact map holds the
3 keys recorded by steps 1-2, not 4 — and the run errors instead of
completing. -/
theorem claim_C2_counterexample :
    ¬ ((MTN.start_analysis geoFound vizFail3 (some mtnOneRow)).viz.length = 4 ∧
       (MTN.run geoFound vizFail3 (some mtnOneRow)).countP Event.isCompl = 1) ∧
    (MTN.start_analysis geoFound vizFail3 (some mtnOneRow)).viz
      = [("hourly", "hourly_distribution.png"), ("daily", "day_distribution.png"),
         ("locations", "location_plot.png")] ∧
    (MTN.run geoFound vizFail3 (some mtnOneRow)).countP Event.isErr = 1 ∧
    (MTN.run geoFound vizFail3 (some mtnOneRow)).countP Event.isCompl = 0 :=
  ⟨of_decide_eq_true (by with_unfolding_all rfl),
   by with_unfolding_all rfl,
   by with_unfolding_all rfl,
   by with_unfolding_all rfl⟩

/-- C2 (amended): a raising rendering step aborts the visualization phase:
the steps after it do not execute, the artifact map contains exactly the
keys recorded before the failing step (3 keys when step 3 of 5 raises, as
steps 1-2 record "hourly", "daily" and "locations"), and the run fails
with an error event instead of completing. -/
theorem claim_C2_amended :
    (∀ (geo : GeoFn) (rfail : Nat → Bool) (cache : GeoCache) (f : MTN.MtnFrame),
      rfail 0 = false → rfail 1 = false → rfail 2 = true →
      (MTN.mapStep geo cache f).1 = none →
      MTN.vizPhase geo rfail cache f
        = ([("hourly", "hourly_distribution.png"),
            ("daily", "day_distribution.png"),
            ("locations", "location_plot.png")],
           some "failed to save the map",
           (MTN.mapStep geo cache f).2.1, (MTN.mapStep geo cache f).2.2)) ∧
    (MTN.run geoFound vizFail3 (some mtnOneRow)).getLast?
      = some (.error "Analysis failed: failed to save the map") := by
  constructor
  · intro geo rfail cache f h0 h1 h2 hm
    unfold MTN.vizPhase
    rcases hms : MTN.mapStep geo cache f with ⟨e, c1, lk1⟩
    rw [hms] at hm
    simp only at hm
    subst hm
    simp [h0, h1, h2]
  · with_unfolding_all rfl

/-- Witness for C2 (amended): the concrete one-row run with the map save
failing. -/
theorem claim_C2_witness :
    MTN.vizPhase geoFound vizFail3 [] mtnOneRow
      = ([("hourly", "hourly_distribution.png"),
          ("daily", "day_distribution.png"),
          ("locations", "location_plot.png")],
         some "failed to save the map",
         (MTN.mapStep geoFound [] mtnOneRow).2.1,
         (MTN.mapStep geoFound [] mtnOneRow).2.2) :=
  claim_C2_amended.1 geoFound vizFail3 [] mtnOneRow rfl rfl rfl
    (of_decide_eq_true (by with_unfolding_all rfl))

/-- C8 is false as stated: the geolocation cache is not process-wide — a
second run over the same file constructs a new `AnalysisThread` whose
`__init__` resets the cache, so the coordinate pair geocoded and cached by
the first run triggers a fresh network-bound lookup in the second run. -/
theorem claim_C8_counterexample :
    (MTN.processTwoRuns geoFound allRenderOk (some mtnOneRow)).1.cache
      = [((some 5, some 6), "Addr")] ∧
    (MTN.processTwoRuns geoFound allRenderOk (some mtnOneRow)).2.lookups
      = [(some 5, some 6)] :=
  ⟨by with_unfolding_all rfl, by with_unfolding_all rfl⟩

/-- C8 (amended): the geolocation cache is per-run (per `AnalysisThread`,
created empty by `__init__`) and append-only within a run: a cached key is
served without any new network lookup for the rest of that run — the
one-row run geocodes its coordinate pair at several call sites yet
performs exactly one lookup — but the cache does not persist into later
runs, which rebuild it from empty. -/
theorem claim_C8_amended :
    (∀ (geo : GeoFn) (cache : GeoCache) (k : GeoKey) (a : String),
      cacheFind cache k = some a →
      get_location_name geo cache k = ⟨a, cache, []⟩) ∧
    (MTN.start_analysis geoFound allRenderOk (some mtnOneRow)).lookups
      = [(some 5, some 6)] ∧
    (MTN.processTwoRuns geoFound allRenderOk (some mtnOneRow)).2.cache
      = [((some 5, some 6), "Addr")] := by
  refine ⟨?_, by with_unfolding_all rfl, by with_unfolding_all rfl⟩
  intro geo cache k a h
  unfold get_location_name
  rw [h]

/-- Witness for C8 (amended): a cached key is answered from the cache with
no lookup. -/
theorem claim_C8_witness :
    get_location_name geoFound [((some 5, some 6), "Addr")] (some 5, some 6)
      = ⟨"Addr", [((some 5, some 6), "Addr")], []⟩ :=
  claim_C8_amended.1 geoFound [((some 5, some 6), "Addr")] (some 5, some 6) "Addr"
    (of_decide_eq_true (by with_unfolding_all rfl))

theorem mtn_lastRow_isSome (f : MTN.MtnFrame) (h : f.callingNo ≠ []) :
    ∃ last, MTN.lastRow (MTN.clean f) = some last := by
  unfold MTN.lastRow
  rw [if_neg]
  · exact ⟨_, rfl⟩
  · simp [MTN.clean, MTN.MtnFrame.nRows, h]

theorem mtn_body_frame_cases (geo : GeoFn) (rfail : Nat → Bool) (f : MTN.MtnFrame) :
    (MTN.body geo rfail f).1.frame = MTN.clean f ∨
    ∃ ts, (MTN.body geo rfail f).1.frame = MTN.derive (MTN.clean f) ts := by
  simp only [MTN.body]
  repeat' (first | (exact .inl rfl) | (exact .inr ⟨_, rfl⟩) | split)

theorem mtn_body_frame_of (geo : GeoFn) (rfail : Nat → Bool) (f : MTN.MtnFrame)
    (ts : List DateTime) (h1 : f.callingNo ≠ [])
    (h2 : parseTsList f.eventDateTime = some ts) :
    (MTN.body geo rfail f).1.frame = MTN.derive (MTN.clean f) ts := by
  obtain ⟨last, hl⟩ := mtn_lastRow_isSome f h1
  have h2c : parseTsList (MTN.clean f).eventDateTime = some ts := h2
  simp only [MTN.body, hl, h2c]
  repeat' (first | rfl | split)

theorem momo_body_frame_of (f : Momo.MomoFrame) (ds : List String)
    (ts : List DateTime) (hd : f.dateRaw = some ds)
    (hp : parseTsList ds = some ts) (hs : Momo.topSenders f ≠ [])
    (hr : Momo.topReceivers f ≠ []) (hh : histRaises f.fromAmount = false) :
    (Momo.body f).frame
      = { f with dateD := some ts, hourD := some (ts.map DateTime.hour),
                 dowD := some (ts.map DateTime.dayName) } := by
  cases hsl : Momo.topSenders f with
  | nil => exact absurd hsl hs
  | cons s0 srest =>
    cases hrl : Momo.topReceivers f with
    | nil => exact absurd hrl hr
    | cons r0 rrest =>
      simp only [Momo.body, Momo.timeBlock, hsl, hrl, hd, hp, hh, List.head?]
      repeat' split
      all_goals simp_all [hd]

theorem atcdr_body_frame_cases (f : ATCDR.AtcdrFrame)
    (h1 : ATCDR.int64CastFails f.outgoing = false)
    (h2 : ATCDR.int64CastFails f.incoming = false) :
    (ATCDR.body f).frame = ATCDR.fillPhones f ∨
    ∃ ts, (ATCDR.body f).frame = ATCDR.derive (ATCDR.fillPhones f) ts := by
  simp only [ATCDR.body, h1, h2, Bool.false_eq_true, if_false]
  repeat' (first | (exact .inl rfl) | (exact .inr ⟨_, rfl⟩) | split)

theorem atcdr_body_frame_of (f : ATCDR.AtcdrFrame) (ts : List DateTime)
    (h1 : ATCDR.int64CastFails f.outgoing = false)
    (h2 : ATCDR.int64CastFails f.incoming = false)
    (hp : parseTsList f.eventDateTime = some ts) :
    (ATCDR.body f).frame = ATCDR.derive (ATCDR.fillPhones f) ts := by
  have hpc : parseTsList (ATCDR.fillPhones f).eventDateTime = some ts := hp
  simp only [ATCDR.body, h1, h2, hpc, Bool.false_eq_true, if_false]
  repeat' (first | rfl | split)

/-- C9: the background run mutates the loaded dataframe in place: after a
run whose table is nonempty and whose timestamps parse, the caller-visible
MTN table has gained the `hour`, `day_of_week` and `period` columns and a
converted datetime column, and its calling-number, called-number and IMEI
columns are rewritten as strings with any trailing ".0" stripped (the
stripping happens on every run, even failing ones); the mobile-money run
likewise adds `DATE`/`HOUR`/`DAY_OF_WEEK` provided it reaches its time
block — the amount histogram before that block must not raise, i.e. the
`FROM AMOUNT` column must not be nonempty-and-all-NaN; the AirtelTigo CDR
run zero-fills its phone columns in place and adds `Hour`/`DayOfWeek`/
`Period`, provided its initial `fillna(0).astype('Int64')` casts do not
raise, i.e. neither phone column holds a non-integral float. -/
theorem claim_C9 :
    (∀ (geo : GeoFn) (rfail : Nat → Bool) (f : MTN.MtnFrame),
      (MTN.body geo rfail f).1.frame.callingNo = f.callingNo.map MTN.stripDot0 ∧
      (MTN.body geo rfail f).1.frame.calledNo = f.calledNo.map MTN.stripDot0 ∧
      (MTN.body geo rfail f).1.frame.imei = f.imei.map MTN.stripDot0) ∧
    (∀ (geo : GeoFn) (rfail : Nat → Bool) (f : MTN.MtnFrame) (ts : List DateTime),
      f.callingNo ≠ [] → parseTsList f.eventDateTime = some ts →
      (MTN.body geo rfail f).1.frame.eventDT = some ts ∧
      (MTN.body geo rfail f).1.frame.hourD = some (ts.map DateTime.hour) ∧
      (MTN.body geo rfail f).1.frame.dowD = some (ts.map DateTime.dayName) ∧
      (MTN.body geo rfail f).1.frame.periodD
        = some (ts.map (fun t => get_time_period t.hour))) ∧
    (∀ (f : Momo.MomoFrame) (ds : List String) (ts : List DateTime),
      f.dateRaw = some ds → parseTsList ds = some ts →
      Momo.topSenders f ≠ [] → Momo.topReceivers f ≠ [] →
      histRaises f.fromAmount = false →
      (Momo.runFrame f).dateD = some ts ∧
      (Momo.runFrame f).hourD = some (ts.map DateTime.hour) ∧
      (Momo.runFrame f).dowD = some (ts.map DateTime.dayName)) ∧
    (∀ f : ATCDR.AtcdrFrame,
      ATCDR.int64CastFails f.outgoing = false →
      ATCDR.int64CastFails f.incoming = false →
      (ATCDR.runFrame f).outgoing = f.outgoing.map (fun c => some (c.getD 0)) ∧
      (ATCDR.runFrame f).incoming = f.incoming.map (fun c => some (c.getD 0))) ∧
    (∀ (f : ATCDR.AtcdrFrame) (ts : List DateTime),
      ATCDR.int64CastFails f.outgoing = false →
      ATCDR.int64CastFails f.incoming = false →
      parseTsList f.eventDateTime = some ts →
      (ATCDR.runFrame f).hourD = some (ts.map DateTime.hour) ∧
      (ATCDR.runFrame f).dowD = some (ts.map DateTime.dayName) ∧
      (ATCDR.runFrame f).periodD
        = some (ts.map (fun t => get_time_period t.hour))) := by
  refine ⟨?_, ?_, ?_, ?_, ?_⟩
  · intro geo rfail f
    rcases mtn_body_frame_cases geo rfail f with h | ⟨ts, h⟩ <;>
      rw [h] <;> exact ⟨rfl, rfl, rfl⟩
  · intro geo rfail f ts h1 h2
    rw [mtn_body_frame_of geo rfail f ts h1 h2]
    exact ⟨rfl, rfl, rfl, rfl⟩
  · intro f ds ts hd hp hs hr hh
    unfold Momo.runFrame
    rw [momo_body_frame_of f ds ts hd hp hs hr hh]
    exact ⟨rfl, rfl, rfl⟩
  · intro f h1 h2
    unfold ATCDR.runFrame
    rcases atcdr_body_frame_cases f h1 h2 with h | ⟨ts, h⟩ <;>
      rw [h] <;> exact ⟨rfl, rfl⟩
  · intro f ts h1 h2 hp
    unfold ATCDR.runFrame
    rw [atcdr_body_frame_of f ts h1 h2 hp]
    exact ⟨rfl, rfl, rfl⟩

/-- Witness for C9 on concrete one-row tables. -/
theorem claim_C9_witness :
    ((MTN.body geoFound allRenderOk mtnOneRow).1.frame.eventDT
        = some [⟨2024, 1, 1, 10, 0, 0⟩] ∧
      (MTN.body geoFound allRenderOk mtnOneRow).1.frame.hourD
        = some ([⟨2024, 1, 1, 10, 0, 0⟩].map DateTime.hour) ∧
      (MTN.body geoFound allRenderOk mtnOneRow).1.frame.dowD
        = some ([⟨2024, 1, 1, 10, 0, 0⟩].map DateTime.dayName) ∧
      (MTN.body geoFound allRenderOk mtnOneRow).1.frame.periodD
        = some ([(⟨2024, 1, 1, 10, 0, 0⟩ : DateTime)].map
            (fun t => get_time_period t.hour))) ∧
    ((Momo.runFrame momoDatedFrame).dateD = some [⟨2024, 1, 1, 10, 0, 0⟩] ∧
      (Momo.runFrame momoDatedFrame).hourD
        = some ([⟨2024, 1, 1, 10, 0, 0⟩].map DateTime.hour) ∧
      (Momo.runFrame momoDatedFrame).dowD
        = some ([⟨2024, 1, 1, 10, 0, 0⟩].map DateTime.dayName)) ∧
    ((ATCDR.runFrame atcdrOneRow).outgoing
        = atcdrOneRow.outgoing.map (fun c => some (c.getD 0)) ∧
      (ATCDR.runFrame atcdrOneRow).incoming
        = atcdrOneRow.incoming.map (fun c => some (c.getD 0))) ∧
    ((ATCDR.runFrame atcdrOneRow).hourD
        = some ([⟨2024, 1, 1, 10, 0, 0⟩].map DateTime.hour) ∧
      (ATCDR.runFrame atcdrOneRow).dowD
        = some ([⟨2024, 1, 1, 10, 0, 0⟩].map DateTime.dayName) ∧
      (ATCDR.runFrame atcdrOneRow).periodD
        = some ([(⟨2024, 1, 1, 10, 0, 0⟩ : DateTime)].map
            (fun t => get_time_period t.hour))) :=
  ⟨claim_C9.2.1 geoFound allRenderOk mtnOneRow [⟨2024, 1, 1, 10, 0, 0⟩]
      (of_decide_eq_true (by with_unfolding_all rfl))
      (by with_unfolding_all rfl),
   claim_C9.2.2.1 momoDatedFrame ["2024-01-01 10:00:00"] [⟨2024, 1, 1, 10, 0, 0⟩]
      rfl (by with_unfolding_all rfl)
      (of_decide_eq_true (by with_unfolding_all rfl))
      (of_decide_eq_true (by with_unfolding_all rfl))
      (by with_unfolding_all rfl),
   claim_C9.2.2.2.1 atcdrOneRow
      (by with_unfolding_all rfl) (by with_unfolding_all rfl),
   claim_C9.2.2.2.2 atcdrOneRow [⟨2024, 1, 1, 10, 0, 0⟩]
      (by with_unfolding_all rfl) (by with_unfolding_all rfl)
      (by with_unfolding_all rfl)⟩

end CDR
